import Mathlib

/-!
# USB gadget controller (`usb/gadget/UsbGadget.cpp`)

A shallow embedding of the gadget controller: the VID/PID selection switch
(`validateAndSetVidPid`), the teardown (`tearDownGadget`), the function linking and
pull-up (`setupFunctions`) and the request handler (`setCurrentUsbFunctions`).

The controller is sequential code that calls into a filesystem-mutation library, a
descriptor monitor and a binder callback.  These collaborators are not part of the
source; they are represented by an environment of oracles.  Every call that changes
the outside world is appended to a chronological trace of events, and every oracle
receives the trace of the events that happened before the call, so that the outcome
of an operation may depend on the whole history.  Logging (`ALOGI`, `ALOGE`) has no
effect on the control flow and is left out.

The request handler is followed on its calling thread.  The watcher thread of the
monitor is not a thread of the model: it is represented by its effect on
`mCurrentUsbFunctionsApplied` at the one point where the calling thread synchronises
with it, the return of `waitForPullUp` (see `waitForPullUpEffect`).
-/

namespace UsbGadget

/-! ## Declarations used by the source -/

/-- Status codes of the gadget interface (`Status::SUCCESS`, ...). -/
inductive Status where
  | SUCCESS
  | ERROR
  | FUNCTIONS_APPLIED
  | FUNCTIONS_NOT_APPLIED
  | CONFIGURATION_NOT_SUPPORTED
  deriving DecidableEq, Repr

/-- Binder status object returned by the entry points and by callback invocations. -/
inductive ScopedAStatus where
  | ok
  | fromServiceSpecificErrorWithMessage (code : Int) (message : String)
  deriving DecidableEq, Repr

/-- Test `ret.isOk()`. -/
def ScopedAStatus.isOk : ScopedAStatus → Bool
  | ScopedAStatus.ok => true
  | ScopedAStatus.fromServiceSpecificErrorWithMessage _ _ => false

/-- The `GadgetFunction::...` bit constants.  Their declaration is not part of the
source files, so the switch is embedded over an arbitrary assignment of values. -/
structure GadgetFunction where
  NONE : Int
  ADB : Int
  ACCESSORY : Int
  MTP : Int
  MIDI : Int
  PTP : Int
  RNDIS : Int
  AUDIO_SOURCE : Int
  UVC : Int

/-- Modelled from the spec: the declaration of the `GadgetFunction` constants is not
among the source files; the spec describes the function set as a bitmask with `NONE`
the empty set.  The values are those of the published gadget interface, one bit per
function.  They are used for concrete evaluations only. -/
def aidlGadgetFunction : GadgetFunction where
  NONE := 0
  ADB := 1
  ACCESSORY := 2
  MTP := 4
  MIDI := 8
  PTP := 16
  RNDIS := 32
  AUDIO_SOURCE := 64
  UVC := 128

/-- One observable call of the controller into a collaborator. -/
inductive Event where
  | resetGadget
  | monitorReset
  | usleep (us : Nat)
  | setVidPid (vid pid : String)
  | addGenericAndroidFunctions (functions : Int) (ffsEnabled : Bool) (i : Int)
  | linkFunction (function : String) (index : Int)
  | addAdb (i : Int)
  | WriteStringToFile (content path : String)
  | registerFunctionsAppliedCallback
  | startMonitor
  | waitForPullUp (timeout : Nat)
  | setCurrentUsbFunctionsCb (functions : Int) (status : Status) (transactionId : Int)
  deriving DecidableEq, Repr

/-- The collaborators of the controller and the constants of `UsbGadget.h`.
Each oracle takes the trace of the events that precede the call. -/
structure Env where
  kGadgetName : String
  PULLUP_PATH : String
  kDisconnectWaitUs : Nat
  getVendorFunctions : List Event → String
  getBoolPropertyUvcEnabled : List Event → Bool
  resetGadget : List Event → Status
  isMonitorRunning : List Event → Bool
  setVidPid : List Event → String → String → Status
  addGenericAndroidFunctions : List Event → Int → Bool → Int → Status × Bool × Int
  linkFunction : List Event → String → Int → Int
  addAdb : List Event → Int → Status × Int
  WriteStringToFile : List Event → String → String → Bool
  waitForPullUp : List Event → Nat → Bool

/-- The binder callback object of a request; the oracle gives the transport result of
an invocation of `setCurrentUsbFunctionsCb`. -/
structure IUsbGadgetCallback where
  setCurrentUsbFunctionsCb : List Event → Int → Status → Int → ScopedAStatus

/-- Fields of the controller object that the request handler writes. -/
structure Gadget where
  mCurrentUsbFunctions : Int
  mCurrentUsbFunctionsApplied : Bool
  deriving DecidableEq, Repr

/-- Embedding of `currentFunctionsAppliedCallback`, the function registered with the
monitor.  It is invoked by the watcher thread of the monitor, never by the request
handler itself. -/
def currentFunctionsAppliedCallback (functionsApplied : Bool) (gadget : Gadget) : Gadget :=
  { gadget with mCurrentUsbFunctionsApplied := functionsApplied }

/-- Modelled from the spec: the descriptor monitor is not among the source files.  By
the spec its watcher thread pulls the gadget up itself once the descriptors are written,
invokes the registered callback with the new applied state and then signals the waiting
thread; `waitForPullUp` returns whether pull-up succeeded, and functionsApplied is set
true only on confirmed pull-up.  So when the wait returns true the registered callback
`currentFunctionsAppliedCallback` has run with `true`, and when it returns false the
callback has not run. -/
def waitForPullUpEffect (pullup : Bool) (gadget : Gadget) : Gadget :=
  if pullup = true then currentFunctionsAppliedCallback true gadget else gadget

/-! ## `validateAndSetVidPid` -/

/-- Call `setVidPid(vid, pid)`: the write is recorded and its status returned. -/
def setVidPid (E : Env) (tr : List Event) (vid pid : String) : Status × List Event :=
  (E.setVidPid tr vid pid, tr ++ [Event.setVidPid vid pid])

/-- The switch of `validateAndSetVidPid`, case by case in source order.  In the six
accessory and audio-source cases the test on the vendor string only guards a log line. -/
def validateAndSetVidPid (G : GadgetFunction) (E : Env) (functions : Int)
    (tr : List Event) : Status × List Event :=
  let vendorFunctions := E.getVendorFunctions tr
  if functions = G.MTP then
    if vendorFunctions = "diag" then setVidPid E tr "0x05C6" "0x901B"
    else if ¬ (vendorFunctions = "user" ∨ vendorFunctions = "") then
      (Status.CONFIGURATION_NOT_SUPPORTED, tr)
    else setVidPid E tr "0x18d1" "0x4ee1"
  else if functions = Int.lor G.ADB G.MTP then
    if vendorFunctions = "diag" then setVidPid E tr "0x05C6" "0x903A"
    else if ¬ (vendorFunctions = "user" ∨ vendorFunctions = "") then
      (Status.CONFIGURATION_NOT_SUPPORTED, tr)
    else setVidPid E tr "0x18d1" "0x4ee2"
  else if functions = G.RNDIS then
    if vendorFunctions = "diag" then setVidPid E tr "0x05C6" "0x902C"
    else if vendorFunctions = "serial_cdev,diag" then setVidPid E tr "0x05C6" "0x90B5"
    else if vendorFunctions = "diag,diag_mdm,qdss,qdss_mdm,serial_cdev,dpl_gsi" then
      setVidPid E tr "0x05C6" "0x90E6"
    else if ¬ (vendorFunctions = "user" ∨ vendorFunctions = "") then
      (Status.CONFIGURATION_NOT_SUPPORTED, tr)
    else setVidPid E tr "0x18d1" "0x4ee3"
  else if functions = Int.lor G.ADB G.RNDIS then
    if vendorFunctions = "diag" then setVidPid E tr "0x05C6" "0x902D"
    else if vendorFunctions = "serial_cdev,diag" then setVidPid E tr "0x05C6" "0x90B6"
    else if vendorFunctions = "diag,diag_mdm,qdss,qdss_mdm,serial_cdev,dpl_gsi" then
      setVidPid E tr "0x05C6" "0x90E7"
    else if ¬ (vendorFunctions = "user" ∨ vendorFunctions = "") then
      (Status.CONFIGURATION_NOT_SUPPORTED, tr)
    else setVidPid E tr "0x18d1" "0x4ee4"
  else if functions = G.PTP then
    if ¬ (vendorFunctions = "user" ∨ vendorFunctions = "") then
      (Status.CONFIGURATION_NOT_SUPPORTED, tr)
    else setVidPid E tr "0x18d1" "0x4ee5"
  else if functions = Int.lor G.ADB G.PTP then
    if ¬ (vendorFunctions = "user" ∨ vendorFunctions = "") then
      (Status.CONFIGURATION_NOT_SUPPORTED, tr)
    else setVidPid E tr "0x18d1" "0x4ee6"
  else if functions = G.ADB then
    if vendorFunctions = "diag" then setVidPid E tr "0x05C6" "0x901D"
    else if vendorFunctions = "diag,serial_cdev,rmnet_gsi" then
      setVidPid E tr "0x05C6" "0x9091"
    else if vendorFunctions = "diag,serial_cdev" then setVidPid E tr "0x05C6" "0x901F"
    else if vendorFunctions = "diag,serial_cdev,rmnet_gsi,dpl_gsi,qdss" then
      setVidPid E tr "0x05C6" "0x90DB"
    else if vendorFunctions = "diag,diag_mdm,qdss,qdss_mdm,serial_cdev,dpl_gsi,rmnet_gsi" then
      setVidPid E tr "0x05C6" "0x90E5"
    else if ¬ (vendorFunctions = "user" ∨ vendorFunctions = "") then
      (Status.CONFIGURATION_NOT_SUPPORTED, tr)
    else setVidPid E tr "0x18d1" "0x4ee7"
  else if functions = G.MIDI then
    if ¬ (vendorFunctions = "user" ∨ vendorFunctions = "") then
      (Status.CONFIGURATION_NOT_SUPPORTED, tr)
    else setVidPid E tr "0x18d1" "0x4ee8"
  else if functions = Int.lor G.ADB G.MIDI then
    if ¬ (vendorFunctions = "user" ∨ vendorFunctions = "") then
      (Status.CONFIGURATION_NOT_SUPPORTED, tr)
    else setVidPid E tr "0x18d1" "0x4ee9"
  else if functions = G.ACCESSORY then
    setVidPid E tr "0x18d1" "0x2d00"
  else if functions = Int.lor G.ADB G.ACCESSORY then
    setVidPid E tr "0x18d1" "0x2d01"
  else if functions = G.AUDIO_SOURCE then
    setVidPid E tr "0x18d1" "0x2d02"
  else if functions = Int.lor G.ADB G.AUDIO_SOURCE then
    setVidPid E tr "0x18d1" "0x2d03"
  else if functions = Int.lor G.ACCESSORY G.AUDIO_SOURCE then
    setVidPid E tr "0x18d1" "0x2d04"
  else if functions = Int.lor (Int.lor G.ADB G.ACCESSORY) G.AUDIO_SOURCE then
    setVidPid E tr "0x18d1" "0x2d05"
  else if functions = G.UVC then
    if ¬ (vendorFunctions = "user" ∨ vendorFunctions = "") then
      (Status.CONFIGURATION_NOT_SUPPORTED, tr)
    else if ¬ (E.getBoolPropertyUvcEnabled tr = true) then
      (Status.CONFIGURATION_NOT_SUPPORTED, tr)
    else setVidPid E tr "0x18d1" "0x4eed"
  else if functions = Int.lor G.ADB G.UVC then
    if ¬ (vendorFunctions = "user" ∨ vendorFunctions = "") then
      (Status.CONFIGURATION_NOT_SUPPORTED, tr)
    else if ¬ (E.getBoolPropertyUvcEnabled tr = true) then
      (Status.CONFIGURATION_NOT_SUPPORTED, tr)
    else setVidPid E tr "0x18d1" "0x4eee"
  else
    (Status.CONFIGURATION_NOT_SUPPORTED, tr)

/-- The seventeen case labels of the switch, in source order. -/
def caseLabels (G : GadgetFunction) : List Int :=
  [G.MTP, Int.lor G.ADB G.MTP, G.RNDIS, Int.lor G.ADB G.RNDIS, G.PTP, Int.lor G.ADB G.PTP,
   G.ADB, G.MIDI, Int.lor G.ADB G.MIDI, G.ACCESSORY, Int.lor G.ADB G.ACCESSORY,
   G.AUDIO_SOURCE, Int.lor G.ADB G.AUDIO_SOURCE, Int.lor G.ACCESSORY G.AUDIO_SOURCE,
   Int.lor (Int.lor G.ADB G.ACCESSORY) G.AUDIO_SOURCE, G.UVC, Int.lor G.ADB G.UVC]

/-! ## `tearDownGadget` -/

/-- Embedding of `UsbGadget::tearDownGadget`: reset the gadget and, when that succeeded,
stop the monitor if it is running. -/
def tearDownGadget (E : Env) (tr : List Event) : Status × List Event :=
  let tr1 := tr ++ [Event.resetGadget]
  if E.resetGadget tr ≠ Status.SUCCESS then (Status.ERROR, tr1)
  else if E.isMonitorRunning tr1 = true then (Status.SUCCESS, tr1 ++ [Event.monitorReset])
  else (Status.SUCCESS, tr1)

/-! ## `setupFunctions` -/

/-- The characters seen through `c_str()`: those before the first NUL. -/
def c_str (s : String) : List Char :=
  s.data.takeWhile (fun c => c ≠ Char.ofNat 0)

/-- The tokens produced by `strtok(buf, delim)` followed by `strtok(NULL, delim)` until
`NULL`: the maximal runs of characters other than the delimiter.  `cur` holds the
characters of the token being read, last one first. -/
def strtokLoop (delim : Char) : List Char → List Char → List String
  | [], cur => if cur = [] then [] else [String.mk cur.reverse]
  | c :: cs, cur =>
    if c = delim then
      if cur = [] then strtokLoop delim cs []
      else String.mk cur.reverse :: strtokLoop delim cs []
    else strtokLoop delim cs (c :: cur)

/-- All tokens of a string for the delimiter `,`. -/
def strtok (s : String) : List String :=
  strtokLoop ',' (c_str s) []

/-- Local state of the vendor-function loop: whether `return Status::ERROR` was taken,
the link counter `i` and the trace. -/
structure LinkState where
  failed : Bool
  i : Int
  trace : List Event
  deriving DecidableEq, Repr

/-- The call `linkFunction(path, i++)`; a non-zero result takes `return Status::ERROR`. -/
def linkCall (E : Env) (path : String) (st : LinkState) : LinkState :=
  { failed := decide (E.linkFunction st.trace path st.i ≠ 0)
    i := st.i + 1
    trace := st.trace ++ [Event.linkFunction path st.i] }

/-- One statement `if (string(function) == name && linkFunction(path, i++)) return ERROR;`.
The counter is read and incremented only when the name matches. -/
def linkIf (E : Env) (function name path : String) (st : LinkState) : LinkState :=
  if st.failed = true then st
  else if function = name then linkCall E path st
  else st

/-- Body of the `while (function != NULL)` loop for one token. -/
def linkVendorFunction (E : Env) (function : String) (st : LinkState) : LinkState :=
  st
    |> linkIf E function "diag" "diag.diag"
    |> linkIf E function "diag_mdm" "diag.diag_mdm"
    |> linkIf E function "qdss" "qdss.qdss"
    |> linkIf E function "qdss_mdm" "qdss.qdss_mdm"
    |> linkIf E function "serial_cdev" "cser.dun.0"
    |> linkIf E function "dpl_gsi" "gsi.dpl"
    |> linkIf E function "rmnet_gsi" "gsi.rmnet"

/-- The loop over the tokens of the vendor-function string. -/
def linkVendorFunctions (E : Env) (tokens : List String) (st : LinkState) : LinkState :=
  tokens.foldl (fun s function => linkVendorFunction E function s) st

/-- Embedding of `UsbGadget::setupFunctions`.  The only effect of the monitor on the
controller state is the one of `waitForPullUpEffect` at the return of the wait. -/
def setupFunctions (G : GadgetFunction) (E : Env) (g : Gadget) (functions : Int)
    (callback : Option IUsbGadgetCallback) (timeout : Nat) (in_transactionId : Int)
    (tr : List Event) : Status × Gadget × List Event :=
  let r := E.addGenericAndroidFunctions tr functions false 0
  let tr1 := tr ++ [Event.addGenericAndroidFunctions functions false 0]
  if r.1 ≠ Status.SUCCESS then (Status.ERROR, g, tr1)
  else
    let vendorFunctions := E.getVendorFunctions tr1
    let st : LinkState :=
      if vendorFunctions ≠ "" then
        linkVendorFunctions E (strtok vendorFunctions) ⟨false, r.2.2, tr1⟩
      else ⟨false, r.2.2, tr1⟩
    if st.failed = true then (Status.ERROR, g, st.trace)
    else
      -- `if ((functions & GadgetFunction::ADB) != 0)`: failure flag, ffsEnabled, trace
      let adb : Bool × Bool × List Event :=
        if Int.land functions G.ADB ≠ 0 then
          (decide ((E.addAdb st.trace st.i).1 ≠ Status.SUCCESS), true,
            st.trace ++ [Event.addAdb st.i])
        else (false, r.2.1, st.trace)
      if adb.1 = true then (Status.ERROR, g, adb.2.2)
      else
        let ffsEnabled := adb.2.1
        let tr2 := adb.2.2
        if ¬ (ffsEnabled = true) then
          let tr3 := tr2 ++ [Event.WriteStringToFile E.kGadgetName E.PULLUP_PATH]
          if ¬ (E.WriteStringToFile tr2 E.kGadgetName E.PULLUP_PATH = true) then
            (Status.ERROR, g, tr3)
          else
            let g1 : Gadget := { g with mCurrentUsbFunctionsApplied := true }
            match callback with
            | some _ =>
              (Status.SUCCESS, g1,
                tr3 ++ [Event.setCurrentUsbFunctionsCb functions Status.SUCCESS in_transactionId])
            | none => (Status.SUCCESS, g1, tr3)
        else
          let tr3 := tr2 ++ [Event.registerFunctionsAppliedCallback, Event.startMonitor]
          match callback with
          | some cb =>
            let pullup := E.waitForPullUp tr3 timeout
            let g2 := waitForPullUpEffect pullup g
            let tr4 := tr3 ++ [Event.waitForPullUp timeout]
            let status := if pullup = true then Status.SUCCESS else Status.ERROR
            let ret := cb.setCurrentUsbFunctionsCb tr4 functions status in_transactionId
            let tr5 := tr4 ++ [Event.setCurrentUsbFunctionsCb functions status in_transactionId]
            if ¬ (ret.isOk = true) then (Status.ERROR, g2, tr5)
            else (Status.SUCCESS, g2, tr5)
          | none => (Status.SUCCESS, g, tr3)

/-! ## `setCurrentUsbFunctions` -/

/-- The code after the `error:` label of `setCurrentUsbFunctions`. -/
def setCurrentUsbFunctionsError (g : Gadget) (functions : Int)
    (callback : Option IUsbGadgetCallback) (in_transactionId : Int) (status : Status)
    (tr : List Event) : ScopedAStatus × Gadget × List Event :=
  match callback with
  | none =>
    (ScopedAStatus.fromServiceSpecificErrorWithMessage (-1)
      "Usb Gadget setcurrent functions failed", g, tr)
  | some _ =>
    (ScopedAStatus.fromServiceSpecificErrorWithMessage (-1)
      "Error while calling setCurrentUsbFunctionsCb", g,
      tr ++ [Event.setCurrentUsbFunctionsCb functions status in_transactionId])

/-- Embedding of `UsbGadget::setCurrentUsbFunctions`.  Both fields of the controller are
overwritten on entry, so the previous controller state is not an input.  The signed
`timeout` is converted to the unsigned 64-bit parameter of `setupFunctions`.  The lock
`mLockSetCurrentFunction` serialises requests and has no effect on a single request. -/
def setCurrentUsbFunctions (G : GadgetFunction) (E : Env) (functions : Int)
    (callback : Option IUsbGadgetCallback) (timeout : Int) (in_transactionId : Int)
    (tr : List Event) : ScopedAStatus × Gadget × List Event :=
  let g : Gadget := { mCurrentUsbFunctions := functions, mCurrentUsbFunctionsApplied := false }
  let t := tearDownGadget E tr
  if t.1 ≠ Status.SUCCESS then
    setCurrentUsbFunctionsError g functions callback in_transactionId t.1 t.2
  else
    let tr1 := t.2 ++ [Event.usleep E.kDisconnectWaitUs]
    if functions = G.NONE then
      match callback with
      | none =>
        (ScopedAStatus.fromServiceSpecificErrorWithMessage (-1) "callback == NULL", g, tr1)
      | some _ =>
        (ScopedAStatus.fromServiceSpecificErrorWithMessage (-1)
          "Error while calling setCurrentUsbFunctionsCb", g,
          tr1 ++ [Event.setCurrentUsbFunctionsCb functions Status.SUCCESS in_transactionId])
    else
      let v := validateAndSetVidPid G E functions tr1
      if v.1 ≠ Status.SUCCESS then
        setCurrentUsbFunctionsError g functions callback in_transactionId v.1 v.2
      else
        let s := setupFunctions G E g functions callback (timeout % 2 ^ 64).toNat
          in_transactionId v.2
        if s.1 ≠ Status.SUCCESS then
          setCurrentUsbFunctionsError s.2.1 functions callback in_transactionId s.1 s.2.2
        else
          (ScopedAStatus.fromServiceSpecificErrorWithMessage (-1)
            "Usb Gadget setcurrent functions called successfully", s.2.1, s.2.2)

/-! ## Observations on traces -/

/-- Test for an invocation of `setCurrentUsbFunctionsCb`. -/
def Event.isCb : Event → Bool
  | Event.setCurrentUsbFunctionsCb _ _ _ => true
  | _ => false

/-- Test for a write of a VID/PID pair. -/
def Event.isSetVidPid : Event → Bool
  | Event.setVidPid _ _ => true
  | _ => false

/-- Test for a call that links a function: the generic functions, one vendor
function, or ADB. -/
def Event.isLink : Event → Bool
  | Event.addGenericAndroidFunctions _ _ _ => true
  | Event.linkFunction _ _ => true
  | Event.addAdb _ => true
  | _ => false

/-- Test for a call into the monitor made by `setupFunctions`. -/
def Event.isMonitorStart : Event → Bool
  | Event.registerFunctionsAppliedCallback => true
  | Event.startMonitor => true
  | Event.waitForPullUp _ => true
  | _ => false

/-- Test for a write to a file (the only file written by the controller is the
pull-up file). -/
def Event.isWrite : Event → Bool
  | Event.WriteStringToFile _ _ => true
  | _ => false

/-- Test for a call of `waitForPullUp`. -/
def Event.isWait : Event → Bool
  | Event.waitForPullUp _ => true
  | _ => false

/-- Number of invocations of `setCurrentUsbFunctionsCb` in a trace. -/
def cbCount (tr : List Event) : Nat :=
  tr.countP Event.isCb

/-- The statuses delivered to `setCurrentUsbFunctionsCb`, in order. -/
def cbStatuses : List Event → List Status
  | [] => []
  | Event.setCurrentUsbFunctionsCb _ s _ :: tr => s :: cbStatuses tr
  | _ :: tr => cbStatuses tr

/-- Path linked for a recognised vendor-function name. -/
def vendorPath (function : String) : Option String :=
  if function = "diag" then some "diag.diag"
  else if function = "diag_mdm" then some "diag.diag_mdm"
  else if function = "qdss" then some "qdss.qdss"
  else if function = "qdss_mdm" then some "qdss.qdss_mdm"
  else if function = "serial_cdev" then some "cser.dun.0"
  else if function = "dpl_gsi" then some "gsi.dpl"
  else if function = "rmnet_gsi" then some "gsi.rmnet"
  else none

/-- The link calls for a list of paths, numbered upwards from `i0`. -/
def linkEvents (i0 : Int) : List String → List Event
  | [] => []
  | p :: ps => Event.linkFunction p i0 :: linkEvents (i0 + 1) ps

/-! ## Definitions used to state and prove the properties -/

/-- The vendor strings that the case of `functions` compares against before its test
for "user" and the empty string (first matching case, as in the switch). -/
def specialCased (G : GadgetFunction) (functions : Int) : List String :=
  if functions = G.MTP then ["diag"]
  else if functions = Int.lor G.ADB G.MTP then ["diag"]
  else if functions = G.RNDIS then
    ["diag", "serial_cdev,diag", "diag,diag_mdm,qdss,qdss_mdm,serial_cdev,dpl_gsi"]
  else if functions = Int.lor G.ADB G.RNDIS then
    ["diag", "serial_cdev,diag", "diag,diag_mdm,qdss,qdss_mdm,serial_cdev,dpl_gsi"]
  else if functions = G.PTP then []
  else if functions = Int.lor G.ADB G.PTP then []
  else if functions = G.ADB then
    ["diag", "diag,serial_cdev,rmnet_gsi", "diag,serial_cdev",
     "diag,serial_cdev,rmnet_gsi,dpl_gsi,qdss",
     "diag,diag_mdm,qdss,qdss_mdm,serial_cdev,dpl_gsi,rmnet_gsi"]
  else []

/-- The six case labels whose test on the vendor string only guards a log line. -/
def logOnlyLabels (G : GadgetFunction) : List Int :=
  [G.ACCESSORY, Int.lor G.ADB G.ACCESSORY, G.AUDIO_SOURCE, Int.lor G.ADB G.AUDIO_SOURCE,
   Int.lor G.ACCESSORY G.AUDIO_SOURCE, Int.lor (Int.lor G.ADB G.ACCESSORY) G.AUDIO_SOURCE]

/-- The vendor-function loop seen on the list of recognised paths: each path is linked
with the current counter until a link fails. -/
def linkPaths (E : Env) : List String → LinkState → LinkState
  | [], st => st
  | p :: ps, st =>
    if st.failed = true then st
    else linkPaths E ps (linkCall E p st)

/-- The linking part of `setupFunctions` (up to and including `addAdb`): whether
`return Status::ERROR` was taken, the value of `ffsEnabled`, and the trace. -/
def linkStage (G : GadgetFunction) (E : Env) (functions : Int) (tr : List Event) :
    Bool × Bool × List Event :=
  let r := E.addGenericAndroidFunctions tr functions false 0
  let tr1 := tr ++ [Event.addGenericAndroidFunctions functions false 0]
  if r.1 ≠ Status.SUCCESS then (true, false, tr1)
  else
    let st := linkVendorFunctions E (strtok (E.getVendorFunctions tr1)) ⟨false, r.2.2, tr1⟩
    if st.failed = true then (true, r.2.1, st.trace)
    else if Int.land functions G.ADB ≠ 0 then
      (decide ((E.addAdb st.trace st.i).1 ≠ Status.SUCCESS), true,
        st.trace ++ [Event.addAdb st.i])
    else (false, r.2.1, st.trace)

/-- The pull-up part of `setupFunctions`, from the comment "Pull up the gadget right
away when there are no ffs functions" to the end. -/
def pullUpStage (E : Env) (g : Gadget) (functions : Int)
    (callback : Option IUsbGadgetCallback) (timeout : Nat) (in_transactionId : Int)
    (ffsEnabled : Bool) (tr2 : List Event) : Status × Gadget × List Event :=
  if ¬ (ffsEnabled = true) then
    let tr3 := tr2 ++ [Event.WriteStringToFile E.kGadgetName E.PULLUP_PATH]
    if ¬ (E.WriteStringToFile tr2 E.kGadgetName E.PULLUP_PATH = true) then
      (Status.ERROR, g, tr3)
    else
      let g1 : Gadget := { g with mCurrentUsbFunctionsApplied := true }
      match callback with
      | some _ =>
        (Status.SUCCESS, g1,
          tr3 ++ [Event.setCurrentUsbFunctionsCb functions Status.SUCCESS in_transactionId])
      | none => (Status.SUCCESS, g1, tr3)
  else
    let tr3 := tr2 ++ [Event.registerFunctionsAppliedCallback, Event.startMonitor]
    match callback with
    | some cb =>
      let pullup := E.waitForPullUp tr3 timeout
      let g2 := waitForPullUpEffect pullup g
      let tr4 := tr3 ++ [Event.waitForPullUp timeout]
      let status := if pullup = true then Status.SUCCESS else Status.ERROR
      let ret := cb.setCurrentUsbFunctionsCb tr4 functions status in_transactionId
      let tr5 := tr4 ++ [Event.setCurrentUsbFunctionsCb functions status in_transactionId]
      if ¬ (ret.isOk = true) then (Status.ERROR, g2, tr5)
      else (Status.SUCCESS, g2, tr5)
    | none => (Status.SUCCESS, g, tr3)

/-- Shape of a result of `validateAndSetVidPid` started on the trace `tr`: the trace is
either unchanged with CONFIGURATION_NOT_SUPPORTED returned, or extended by one
`setVidPid` call whose status is returned. -/
def VidPidShape (E : Env) (tr : List Event) (x : Status × List Event) : Prop :=
  x = (Status.CONFIGURATION_NOT_SUPPORTED, tr) ∨ ∃ vid pid, x = setVidPid E tr vid pid

/-- The end of `setCurrentUsbFunctions` after the call of `setupFunctions` with result
`s`: the jump to `error:` when the status is not SUCCESS, the success return otherwise. -/
def setCurrentUsbFunctionsFinish (functions : Int) (callback : Option IUsbGadgetCallback)
    (in_transactionId : Int) (s : Status × Gadget × List Event) :
    ScopedAStatus × Gadget × List Event :=
  if s.1 ≠ Status.SUCCESS then
    setCurrentUsbFunctionsError s.2.1 functions callback in_transactionId s.1 s.2.2
  else
    (ScopedAStatus.fromServiceSpecificErrorWithMessage (-1)
      "Usb Gadget setcurrent functions called successfully", s.2.1, s.2.2)

/-! ## Example environments -/

/-- An environment in which every operation succeeds: the vendor-function string and
the UVC flag are given, one generic function is linked, the monitor is not running. -/
def okEnv (vendorFunctions : String) (uvc : Bool) : Env where
  kGadgetName := "a600000.dwc3"
  PULLUP_PATH := "/config/usb_gadget/g1/UDC"
  kDisconnectWaitUs := 100000
  getVendorFunctions := fun _ => vendorFunctions
  getBoolPropertyUvcEnabled := fun _ => uvc
  resetGadget := fun _ => Status.SUCCESS
  isMonitorRunning := fun _ => false
  setVidPid := fun _ _ _ => Status.SUCCESS
  addGenericAndroidFunctions := fun _ _ ffsEnabled i => (Status.SUCCESS, ffsEnabled, i + 1)
  linkFunction := fun _ _ _ => 0
  addAdb := fun _ i => (Status.SUCCESS, i + 1)
  WriteStringToFile := fun _ _ _ => true
  waitForPullUp := fun _ _ => true

/-- A callback whose transport always succeeds. -/
def okCallback : IUsbGadgetCallback where
  setCurrentUsbFunctionsCb := fun _ _ _ _ => ScopedAStatus.ok

/-- A callback whose transport always fails. -/
def deadCallback : IUsbGadgetCallback where
  setCurrentUsbFunctionsCb := fun _ _ _ _ =>
    ScopedAStatus.fromServiceSpecificErrorWithMessage (-1) "dead object"

/-! ## VID/PID selection -/

theorem caseLabels_aidl_nodup : (caseLabels aidlGadgetFunction).Nodup := by
  decide

/-- With pairwise distinct case labels, every label differs from the labels before it. -/
theorem caseLabels_ne (G : GadgetFunction) (hG : (caseLabels G).Nodup) :
    (caseLabels G).reverse.Pairwise (fun a b => ¬ a = b) :=
  List.nodup_reverse.2 hG

/-- C1: for the function set ADB|MTP the empty vendor string selects
("0x18d1", "0x4ee2") and "diag" selects ("0x05C6", "0x903A"), the returned status being
the status of that `setVidPid` write; "bogus" selects no pair, writes nothing and
returns CONFIGURATION_NOT_SUPPORTED. -/
theorem validateAndSetVidPid_adb_mtp (G : GadgetFunction) (E : Env) (tr : List Event)
    (hG : (caseLabels G).Nodup) :
    (E.getVendorFunctions tr = "" →
      validateAndSetVidPid G E (Int.lor G.ADB G.MTP) tr
        = (E.setVidPid tr "0x18d1" "0x4ee2", tr ++ [Event.setVidPid "0x18d1" "0x4ee2"])) ∧
    (E.getVendorFunctions tr = "diag" →
      validateAndSetVidPid G E (Int.lor G.ADB G.MTP) tr
        = (E.setVidPid tr "0x05C6" "0x903A", tr ++ [Event.setVidPid "0x05C6" "0x903A"])) ∧
    (E.getVendorFunctions tr = "bogus" →
      validateAndSetVidPid G E (Int.lor G.ADB G.MTP) tr
        = (Status.CONFIGURATION_NOT_SUPPORTED, tr)) := by
  have h1 : Int.lor G.ADB G.MTP ≠ G.MTP := by
    intro h
    simp [caseLabels, h] at hG
  refine ⟨?_, ?_, ?_⟩ <;> intro hv <;>
    simp [validateAndSetVidPid, setVidPid, h1, hv]

theorem validateAndSetVidPid_adb_mtp_witness :
    validateAndSetVidPid aidlGadgetFunction (okEnv "" false) 5 []
        = (Status.SUCCESS, [Event.setVidPid "0x18d1" "0x4ee2"]) ∧
    validateAndSetVidPid aidlGadgetFunction (okEnv "diag" false) 5 []
        = (Status.SUCCESS, [Event.setVidPid "0x05C6" "0x903A"]) ∧
    validateAndSetVidPid aidlGadgetFunction (okEnv "bogus" false) 5 []
        = (Status.CONFIGURATION_NOT_SUPPORTED, []) :=
  ⟨(validateAndSetVidPid_adb_mtp aidlGadgetFunction (okEnv "" false) []
      caseLabels_aidl_nodup).1 rfl,
   (validateAndSetVidPid_adb_mtp aidlGadgetFunction (okEnv "diag" false) []
      caseLabels_aidl_nodup).2.1 rfl,
   (validateAndSetVidPid_adb_mtp aidlGadgetFunction (okEnv "bogus" false) []
      caseLabels_aidl_nodup).2.2 rfl⟩

/-- C2 (counterexample): for ACCESSORY the vendor string "bogus" is neither empty, nor
"user", nor special-cased, yet the pair ("0x18d1", "0x2d00") is written and the status
of the write (here SUCCESS) is returned instead of CONFIGURATION_NOT_SUPPORTED. -/
theorem validateAndSetVidPid_accessory_bogus :
    (okEnv "bogus" false).getVendorFunctions [] ≠ "" ∧
    (okEnv "bogus" false).getVendorFunctions [] ≠ "user" ∧
    (okEnv "bogus" false).getVendorFunctions [] ∉ specialCased aidlGadgetFunction
      aidlGadgetFunction.ACCESSORY ∧
    validateAndSetVidPid aidlGadgetFunction (okEnv "bogus" false)
        aidlGadgetFunction.ACCESSORY []
      = (Status.SUCCESS, [Event.setVidPid "0x18d1" "0x2d00"]) ∧
    validateAndSetVidPid aidlGadgetFunction (okEnv "bogus" false)
        aidlGadgetFunction.ACCESSORY []
      ≠ (Status.CONFIGURATION_NOT_SUPPORTED, []) := by
  decide

/-- C2 (amended): for every function set other than the six accessory and audio-source
combinations, a vendor string that is neither empty, nor "user", nor special-cased for
that set gives CONFIGURATION_NOT_SUPPORTED and no VID/PID write; for the six accessory
and audio-source combinations the fixed pair of the combination is written and the
status of that write returned, whatever the vendor string (empty and "user"
included). -/
theorem validateAndSetVidPid_unmatched_vendor (G : GadgetFunction) (E : Env)
    (tr : List Event) (hG : (caseLabels G).Nodup) :
    (∀ functions : Int, E.getVendorFunctions tr ≠ "" → E.getVendorFunctions tr ≠ "user" →
      E.getVendorFunctions tr ∉ specialCased G functions → functions ∉ logOnlyLabels G →
      validateAndSetVidPid G E functions tr = (Status.CONFIGURATION_NOT_SUPPORTED, tr)) ∧
    validateAndSetVidPid G E G.ACCESSORY tr
      = (E.setVidPid tr "0x18d1" "0x2d00", tr ++ [Event.setVidPid "0x18d1" "0x2d00"]) ∧
    validateAndSetVidPid G E (Int.lor G.ADB G.ACCESSORY) tr
      = (E.setVidPid tr "0x18d1" "0x2d01", tr ++ [Event.setVidPid "0x18d1" "0x2d01"]) ∧
    validateAndSetVidPid G E G.AUDIO_SOURCE tr
      = (E.setVidPid tr "0x18d1" "0x2d02", tr ++ [Event.setVidPid "0x18d1" "0x2d02"]) ∧
    validateAndSetVidPid G E (Int.lor G.ADB G.AUDIO_SOURCE) tr
      = (E.setVidPid tr "0x18d1" "0x2d03", tr ++ [Event.setVidPid "0x18d1" "0x2d03"]) ∧
    validateAndSetVidPid G E (Int.lor G.ACCESSORY G.AUDIO_SOURCE) tr
      = (E.setVidPid tr "0x18d1" "0x2d04", tr ++ [Event.setVidPid "0x18d1" "0x2d04"]) ∧
    validateAndSetVidPid G E (Int.lor (Int.lor G.ADB G.ACCESSORY) G.AUDIO_SOURCE) tr
      = (E.setVidPid tr "0x18d1" "0x2d05", tr ++ [Event.setVidPid "0x18d1" "0x2d05"]) := by
  have hR := caseLabels_ne G hG
  simp only [caseLabels, List.reverse_cons, List.reverse_nil, List.nil_append,
    List.cons_append, List.pairwise_cons, List.mem_cons, List.mem_singleton,
    forall_eq_or_imp, forall_eq, List.not_mem_nil, List.Pairwise.nil, and_true,
    false_implies, implies_true] at hR
  refine ⟨?_, ?_, ?_, ?_, ?_, ?_, ?_⟩
  · intro functions h1 h2 h3 hf
    simp only [logOnlyLabels, List.mem_cons, List.mem_singleton, not_or,
      List.not_mem_nil, not_false_eq_true, and_true] at hf
    simp only [specialCased] at h3
    simp only [validateAndSetVidPid]
    generalize E.getVendorFunctions tr = v at *
    obtain ⟨hf1, hf2, hf3, hf4, hf5, hf6⟩ := hf
    have hu : ¬ (v = "user" ∨ v = "") := by simp [h1, h2]
    simp only [hu, not_false_eq_true, if_true, hf1, hf2, hf3, hf4, hf5, hf6, if_false]
    by_cases c1 : functions = G.MTP
    · rw [if_pos c1] at h3 ⊢; simp at h3; simp [h3]
    rw [if_neg c1] at h3 ⊢
    by_cases c2 : functions = Int.lor G.ADB G.MTP
    · rw [if_pos c2] at h3 ⊢; simp at h3; simp [h3]
    rw [if_neg c2] at h3 ⊢
    by_cases c3 : functions = G.RNDIS
    · rw [if_pos c3] at h3 ⊢; simp at h3; simp [h3]
    rw [if_neg c3] at h3 ⊢
    by_cases c4 : functions = Int.lor G.ADB G.RNDIS
    · rw [if_pos c4] at h3 ⊢; simp at h3; simp [h3]
    rw [if_neg c4] at h3 ⊢
    by_cases c5 : functions = G.PTP
    · rw [if_pos c5]
    rw [if_neg c5] at h3 ⊢
    by_cases c6 : functions = Int.lor G.ADB G.PTP
    · rw [if_pos c6]
    rw [if_neg c6] at h3 ⊢
    by_cases c7 : functions = G.ADB
    · rw [if_pos c7] at h3 ⊢; simp at h3; simp [h3]
    rw [if_neg c7]
    simp only [ite_self]
  all_goals simp only [validateAndSetVidPid, hR, if_false, if_true, setVidPid]

theorem validateAndSetVidPid_unmatched_vendor_witness :
    validateAndSetVidPid aidlGadgetFunction (okEnv "bogus" false) 16 []
      = (Status.CONFIGURATION_NOT_SUPPORTED, []) ∧
    validateAndSetVidPid aidlGadgetFunction (okEnv "bogus" false) 67 []
      = (Status.SUCCESS, [Event.setVidPid "0x18d1" "0x2d05"]) ∧
    validateAndSetVidPid aidlGadgetFunction (okEnv "" false) 2 []
      = (Status.SUCCESS, [Event.setVidPid "0x18d1" "0x2d00"]) ∧
    validateAndSetVidPid aidlGadgetFunction (okEnv "user" false) 64 []
      = (Status.SUCCESS, [Event.setVidPid "0x18d1" "0x2d02"]) :=
  ⟨(validateAndSetVidPid_unmatched_vendor aidlGadgetFunction (okEnv "bogus" false) []
      caseLabels_aidl_nodup).1 16 (by decide) (by decide) (by decide) (by decide),
   (validateAndSetVidPid_unmatched_vendor aidlGadgetFunction (okEnv "bogus" false) []
      caseLabels_aidl_nodup).2.2.2.2.2.2,
   (validateAndSetVidPid_unmatched_vendor aidlGadgetFunction (okEnv "" false) []
      caseLabels_aidl_nodup).2.1,
   (validateAndSetVidPid_unmatched_vendor aidlGadgetFunction (okEnv "user" false) []
      caseLabels_aidl_nodup).2.2.2.1⟩

/-- C3: for UVC and ADB|UVC, when the UVC-enable flag is false the result is
CONFIGURATION_NOT_SUPPORTED with no VID/PID write, for every vendor string; when the
flag is true and the vendor string is empty or "user", the pair ("0x18d1", "0x4eed") is
written for UVC and ("0x18d1", "0x4eee") for ADB|UVC. -/
theorem validateAndSetVidPid_uvc (G : GadgetFunction) (E : Env) (tr : List Event)
    (hG : (caseLabels G).Nodup) :
    (E.getBoolPropertyUvcEnabled tr = false →
      validateAndSetVidPid G E G.UVC tr = (Status.CONFIGURATION_NOT_SUPPORTED, tr) ∧
      validateAndSetVidPid G E (Int.lor G.ADB G.UVC) tr
        = (Status.CONFIGURATION_NOT_SUPPORTED, tr)) ∧
    (E.getBoolPropertyUvcEnabled tr = true →
      (E.getVendorFunctions tr = "" ∨ E.getVendorFunctions tr = "user") →
      validateAndSetVidPid G E G.UVC tr
        = (E.setVidPid tr "0x18d1" "0x4eed", tr ++ [Event.setVidPid "0x18d1" "0x4eed"]) ∧
      validateAndSetVidPid G E (Int.lor G.ADB G.UVC) tr
        = (E.setVidPid tr "0x18d1" "0x4eee", tr ++ [Event.setVidPid "0x18d1" "0x4eee"])) := by
  have hR := caseLabels_ne G hG
  simp only [caseLabels, List.reverse_cons, List.reverse_nil, List.nil_append,
    List.cons_append, List.pairwise_cons, List.mem_cons, List.mem_singleton,
    forall_eq_or_imp, forall_eq, List.not_mem_nil, List.Pairwise.nil, and_true,
    false_implies, implies_true] at hR
  refine ⟨fun hflag => ?_, fun hflag hv => ?_⟩
  · constructor <;>
      simp only [validateAndSetVidPid, hR, if_false, if_true, hflag, Bool.false_eq_true,
        not_false_eq_true, ite_self]
  · have hu : ¬ ¬ (E.getVendorFunctions tr = "user" ∨ E.getVendorFunctions tr = "") :=
      not_not.2 hv.symm
    constructor <;>
      simp only [validateAndSetVidPid, hR, if_false, if_true, hflag, hu, setVidPid,
        not_true_eq_false]

theorem validateAndSetVidPid_uvc_witness :
    (validateAndSetVidPid aidlGadgetFunction (okEnv "user" false) 128 []
        = (Status.CONFIGURATION_NOT_SUPPORTED, []) ∧
      validateAndSetVidPid aidlGadgetFunction (okEnv "user" false) 129 []
        = (Status.CONFIGURATION_NOT_SUPPORTED, [])) ∧
    (validateAndSetVidPid aidlGadgetFunction (okEnv "user" true) 128 []
        = (Status.SUCCESS, [Event.setVidPid "0x18d1" "0x4eed"]) ∧
      validateAndSetVidPid aidlGadgetFunction (okEnv "user" true) 129 []
        = (Status.SUCCESS, [Event.setVidPid "0x18d1" "0x4eee"])) :=
  ⟨(validateAndSetVidPid_uvc aidlGadgetFunction (okEnv "user" false) []
      caseLabels_aidl_nodup).1 rfl,
   (validateAndSetVidPid_uvc aidlGadgetFunction (okEnv "user" true) []
      caseLabels_aidl_nodup).2 rfl (Or.inr rfl)⟩

/-- C4: for every function bitmask that is not one of the seventeen case labels,
`validateAndSetVidPid` returns CONFIGURATION_NOT_SUPPORTED and writes no VID/PID,
whatever the vendor string and the UVC flag. -/
theorem validateAndSetVidPid_default (G : GadgetFunction) (E : Env) (functions : Int)
    (tr : List Event) (h : functions ∉ caseLabels G) :
    validateAndSetVidPid G E functions tr = (Status.CONFIGURATION_NOT_SUPPORTED, tr) := by
  simp only [caseLabels, List.mem_cons, List.mem_singleton, not_or, List.not_mem_nil,
    not_false_eq_true, and_true] at h
  simp only [validateAndSetVidPid, h, if_false]

theorem validateAndSetVidPid_default_witness :
    Int.lor aidlGadgetFunction.MTP aidlGadgetFunction.PTP ∉ caseLabels aidlGadgetFunction ∧
    validateAndSetVidPid aidlGadgetFunction (okEnv "" true)
        (Int.lor aidlGadgetFunction.MTP aidlGadgetFunction.PTP) []
      = (Status.CONFIGURATION_NOT_SUPPORTED, []) ∧
    validateAndSetVidPid aidlGadgetFunction (okEnv "diag" false)
        (Int.lor (Int.lor aidlGadgetFunction.ADB aidlGadgetFunction.MTP)
          aidlGadgetFunction.RNDIS) []
      = (Status.CONFIGURATION_NOT_SUPPORTED, []) :=
  ⟨by decide,
   validateAndSetVidPid_default aidlGadgetFunction (okEnv "" true) _ [] (by decide),
   validateAndSetVidPid_default aidlGadgetFunction (okEnv "diag" false) _ [] (by decide)⟩

/-! ## The vendor-function loop -/

theorem strtok_empty : strtok "" = [] := by
  decide

/-- One pass of the loop body links the path of a recognised token and nothing else. -/
theorem linkVendorFunction_eq (E : Env) (function : String) (st : LinkState) :
    linkVendorFunction E function st
      = match vendorPath function with
        | none => st
        | some p => linkPaths E [p] st := by
  by_cases hf : st.failed = true
  · simp only [linkVendorFunction, linkIf, hf, if_true, linkPaths]
    cases vendorPath function <;> rfl
  · by_cases h1 : function = "diag"
    · subst h1
      simp [linkVendorFunction, linkIf, hf, vendorPath, linkPaths]
    by_cases h2 : function = "diag_mdm"
    · subst h2
      simp [linkVendorFunction, linkIf, hf, vendorPath, linkPaths]
    by_cases h3 : function = "qdss"
    · subst h3
      simp [linkVendorFunction, linkIf, hf, vendorPath, linkPaths]
    by_cases h4 : function = "qdss_mdm"
    · subst h4
      simp [linkVendorFunction, linkIf, hf, vendorPath, linkPaths]
    by_cases h5 : function = "serial_cdev"
    · subst h5
      simp [linkVendorFunction, linkIf, hf, vendorPath, linkPaths]
    by_cases h6 : function = "dpl_gsi"
    · subst h6
      simp [linkVendorFunction, linkIf, hf, vendorPath, linkPaths]
    by_cases h7 : function = "rmnet_gsi"
    · subst h7
      simp [linkVendorFunction, linkIf, hf, vendorPath, linkPaths]
    simp [linkVendorFunction, linkIf, hf, vendorPath, h1, h2, h3, h4, h5, h6, h7]

theorem linkPaths_failed (E : Env) (ps : List String) (st : LinkState)
    (h : st.failed = true) : linkPaths E ps st = st := by
  cases ps <;> simp [linkPaths, h]

theorem linkPaths_append (E : Env) (ps qs : List String) (st : LinkState) :
    linkPaths E (ps ++ qs) st = linkPaths E qs (linkPaths E ps st) := by
  induction ps generalizing st with
  | nil => rfl
  | cons p ps ih =>
    by_cases h : st.failed = true
    · simp [linkPaths, h, linkPaths_failed]
    · simp [linkPaths, h, ih]

/-- The loop over the tokens is the loop over the recognised paths. -/
theorem linkVendorFunctions_eq (E : Env) (tokens : List String) (st : LinkState) :
    linkVendorFunctions E tokens st = linkPaths E (tokens.filterMap vendorPath) st := by
  induction tokens generalizing st with
  | nil => rfl
  | cons t ts ih =>
    simp only [linkVendorFunctions, List.foldl_cons] at ih ⊢
    rw [ih, linkVendorFunction_eq]
    cases hv : vendorPath t with
    | none => simp [List.filterMap_cons, hv]
    | some p =>
      simp only [List.filterMap_cons, hv]
      exact (linkPaths_append E [p] _ st).symm

/-- The loop only appends `linkFunction` calls to the trace. -/
theorem linkPaths_trace (E : Env) (ps : List String) (st : LinkState) :
    ∃ l, (linkPaths E ps st).trace = st.trace ++ l ∧
      ∀ e ∈ l, ∃ p i, e = Event.linkFunction p i := by
  induction ps generalizing st with
  | nil => exact ⟨[], by simp [linkPaths]⟩
  | cons p ps ih =>
    by_cases h : st.failed = true
    · exact ⟨[], by simp [linkPaths, h]⟩
    · obtain ⟨l, hl, hl2⟩ := ih (linkCall E p st)
      refine ⟨Event.linkFunction p st.i :: l, ?_, ?_⟩
      · have h1 : linkPaths E (p :: ps) st = linkPaths E ps (linkCall E p st) :=
          if_neg h
        rw [h1, hl]
        simp [linkCall]
      · intro e he
        rcases List.mem_cons.1 he with rfl | he
        · exact ⟨p, st.i, rfl⟩
        · exact hl2 e he

/-- The linking part of `setupFunctions` only appends link calls to the trace. -/
theorem linkStage_trace (G : GadgetFunction) (E : Env) (functions : Int) (tr : List Event) :
    ∃ l, (linkStage G E functions tr).2.2 = tr ++ l ∧ ∀ e ∈ l, e.isLink = true := by
  obtain ⟨l, hl, hl2⟩ := linkPaths_trace E
    ((strtok (E.getVendorFunctions
      (tr ++ [Event.addGenericAndroidFunctions functions false 0]))).filterMap vendorPath)
    ⟨false, (E.addGenericAndroidFunctions tr functions false 0).2.2,
      tr ++ [Event.addGenericAndroidFunctions functions false 0]⟩
  have hl3 : ∀ e ∈ l, e.isLink = true := by
    intro e he
    obtain ⟨p, i, rfl⟩ := hl2 e he
    rfl
  simp only [linkStage, linkVendorFunctions_eq]
  generalize linkPaths E _ _ = st at hl ⊢
  simp only at hl
  split_ifs
  · exact ⟨[Event.addGenericAndroidFunctions functions false 0], rfl, by simp [Event.isLink]⟩
  · refine ⟨Event.addGenericAndroidFunctions functions false 0 :: l, by simp [hl], ?_⟩
    intro e he
    rcases List.mem_cons.1 he with rfl | he
    · rfl
    · exact hl3 e he
  · refine ⟨Event.addGenericAndroidFunctions functions false 0 :: (l ++ [Event.addAdb st.i]),
      by simp [hl], ?_⟩
    intro e he
    rcases List.mem_cons.1 he with rfl | he
    · rfl
    · rcases List.mem_append.1 he with he | he
      · exact hl3 e he
      · rw [List.mem_singleton.1 he]
        rfl
  · refine ⟨Event.addGenericAndroidFunctions functions false 0 :: l, by simp [hl], ?_⟩
    intro e he
    rcases List.mem_cons.1 he with rfl | he
    · rfl
    · exact hl3 e he

/-- The function `setupFunctions` is its linking part followed by its pull-up part. -/
theorem setupFunctions_eq (G : GadgetFunction) (E : Env) (g : Gadget) (functions : Int)
    (callback : Option IUsbGadgetCallback) (timeout : Nat) (in_transactionId : Int)
    (tr : List Event) :
    setupFunctions G E g functions callback timeout in_transactionId tr
      = if (linkStage G E functions tr).1 = true then
          (Status.ERROR, g, (linkStage G E functions tr).2.2)
        else pullUpStage E g functions callback timeout in_transactionId
          (linkStage G E functions tr).2.1 (linkStage G E functions tr).2.2 := by
  have hv : (if E.getVendorFunctions
          (tr ++ [Event.addGenericAndroidFunctions functions false 0]) ≠ "" then
        linkVendorFunctions E (strtok (E.getVendorFunctions
          (tr ++ [Event.addGenericAndroidFunctions functions false 0])))
          ⟨false, (E.addGenericAndroidFunctions tr functions false 0).2.2,
            tr ++ [Event.addGenericAndroidFunctions functions false 0]⟩
      else ⟨false, (E.addGenericAndroidFunctions tr functions false 0).2.2,
            tr ++ [Event.addGenericAndroidFunctions functions false 0]⟩)
      = linkVendorFunctions E (strtok (E.getVendorFunctions
          (tr ++ [Event.addGenericAndroidFunctions functions false 0])))
          ⟨false, (E.addGenericAndroidFunctions tr functions false 0).2.2,
            tr ++ [Event.addGenericAndroidFunctions functions false 0]⟩ := by
    split_ifs with h
    · rfl
    · rw [not_not.1 h, strtok_empty]
      rfl
  simp only [setupFunctions, hv, linkStage, pullUpStage]
  generalize linkVendorFunctions E _ _ = st
  generalize E.addGenericAndroidFunctions tr functions false 0 = r
  by_cases h1 : r.1 ≠ Status.SUCCESS
  · simp only [if_pos h1, if_true]
  simp only [if_neg h1]
  by_cases h2 : st.failed = true
  · simp only [if_pos h2, if_true]
  simp only [if_neg h2]

/-! ## Shapes of the stages -/

/-- When every link call succeeds, the loop links every path, numbering upwards. -/
theorem linkPaths_ok (E : Env) (ps : List String) (i : Int) (tr : List Event)
    (h : ∀ pre p post, ps = pre ++ p :: post →
      E.linkFunction (tr ++ linkEvents i pre) p (i + pre.length) = 0) :
    linkPaths E ps ⟨false, i, tr⟩ = ⟨false, i + ps.length, tr ++ linkEvents i ps⟩ := by
  induction ps generalizing i tr with
  | nil => simp [linkPaths, linkEvents]
  | cons p ps ih =>
    have h0 : E.linkFunction tr p i = 0 := by
      have := h [] p ps rfl
      simpa [linkEvents] using this
    have h1 : linkPaths E (p :: ps) ⟨false, i, tr⟩
        = linkPaths E ps ⟨false, i + 1, tr ++ [Event.linkFunction p i]⟩ := by
      simp [linkPaths, linkCall, h0]
    rw [h1, ih]
    · simp only [linkEvents, List.length_cons, Nat.cast_add, Nat.cast_one, List.append_assoc,
        List.singleton_append]
      rw [show i + 1 + (ps.length : Int) = i + ((ps.length : Int) + 1) by ring]
    · intro pre q post hps
      have := h (p :: pre) q post (by rw [hps]; rfl)
      simp only [linkEvents, List.length_cons, Nat.cast_add, Nat.cast_one] at this
      rw [show i + 1 + (pre.length : Int) = i + ((pre.length : Int) + 1) by ring]
      simpa using this

theorem tearDownGadget_ok (E : Env) (tr : List Event) (h : E.resetGadget tr = Status.SUCCESS) :
    tearDownGadget E tr
      = (Status.SUCCESS, tr ++ [Event.resetGadget] ++
          (if E.isMonitorRunning (tr ++ [Event.resetGadget]) = true then [Event.monitorReset]
            else [])) := by
  simp only [tearDownGadget, h]
  split_ifs <;> simp_all

theorem tearDownGadget_failed (E : Env) (tr : List Event)
    (h : E.resetGadget tr ≠ Status.SUCCESS) :
    tearDownGadget E tr = (Status.ERROR, tr ++ [Event.resetGadget]) := by
  simp only [tearDownGadget, if_pos h]

theorem vidPidShape_ite (E : Env) (tr : List Event) (c : Prop) [Decidable c]
    (a b : Status × List Event) (ha : VidPidShape E tr a) (hb : VidPidShape E tr b) :
    VidPidShape E tr (if c then a else b) := by
  split_ifs
  · exact ha
  · exact hb

/-- Every result of `validateAndSetVidPid` is either "not supported" with the trace
unchanged or one `setVidPid` call with its status. -/
theorem validateAndSetVidPid_shape (G : GadgetFunction) (E : Env) (functions : Int)
    (tr : List Event) : VidPidShape E tr (validateAndSetVidPid G E functions tr) := by
  unfold validateAndSetVidPid
  repeat' first
    | exact Or.inl rfl
    | exact Or.inr ⟨_, _, rfl⟩
    | apply vidPidShape_ite

theorem isLink_quiet (e : Event) (h : e.isLink = true) :
    e.isCb = false ∧ e.isWait = false := by
  cases e <;> simp_all [Event.isLink, Event.isCb, Event.isWait]

/-- Unfolding of `setCurrentUsbFunctions` after a successful teardown for a request
other than NONE. -/
theorem setCurrentUsbFunctions_after_teardown (G : GadgetFunction) (E : Env)
    (functions : Int) (callback : Option IUsbGadgetCallback)
    (timeout in_transactionId : Int) (tr tr1 : List Event)
    (hreset : E.resetGadget tr = Status.SUCCESS) (hnone : functions ≠ G.NONE)
    (htr1 : tr1 = tr ++ [Event.resetGadget] ++
      (if E.isMonitorRunning (tr ++ [Event.resetGadget]) = true then [Event.monitorReset]
        else []) ++ [Event.usleep E.kDisconnectWaitUs]) :
    setCurrentUsbFunctions G E functions callback timeout in_transactionId tr
      = if (validateAndSetVidPid G E functions tr1).1 ≠ Status.SUCCESS then
          setCurrentUsbFunctionsError
            { mCurrentUsbFunctions := functions, mCurrentUsbFunctionsApplied := false }
            functions callback in_transactionId (validateAndSetVidPid G E functions tr1).1
            (validateAndSetVidPid G E functions tr1).2
        else setCurrentUsbFunctionsFinish functions callback in_transactionId
          (setupFunctions G E
            { mCurrentUsbFunctions := functions, mCurrentUsbFunctionsApplied := false }
            functions callback (timeout % 2 ^ 64).toNat in_transactionId
            (validateAndSetVidPid G E functions tr1).2) := by
  subst htr1
  have ht := tearDownGadget_ok E tr hreset
  simp only [setCurrentUsbFunctions, ht, if_neg hnone, ne_eq, not_true_eq_false, if_false,
    setCurrentUsbFunctionsFinish]

/-- Shape of the trace of `setupFunctions` followed by the end of
`setCurrentUsbFunctions`, for a request with a callback: either one invocation of the
callback after events that are neither invocations nor waits, or the monitored path:
the wait, the invocation with its outcome and, when the transport of that invocation
failed, a second invocation with ERROR. -/
theorem setCurrentUsbFunctionsFinish_shape (G : GadgetFunction) (E : Env) (g : Gadget)
    (functions : Int) (cb : IUsbGadgetCallback) (t0 : Nat) (in_transactionId : Int)
    (tr2 : List Event) :
    ∃ B, (∀ e ∈ B, e.isCb = false ∧ e.isWait = false) ∧
      ((∃ st, (setCurrentUsbFunctionsFinish functions (some cb) in_transactionId
          (setupFunctions G E g functions (some cb) t0 in_transactionId tr2)).2.2
          = tr2 ++ B ++ [Event.setCurrentUsbFunctionsCb functions st in_transactionId]) ∨
       ((setCurrentUsbFunctionsFinish functions (some cb) in_transactionId
          (setupFunctions G E g functions (some cb) t0 in_transactionId tr2)).2.1
          = waitForPullUpEffect (E.waitForPullUp (tr2 ++ B) t0) g ∧
        (setCurrentUsbFunctionsFinish functions (some cb) in_transactionId
          (setupFunctions G E g functions (some cb) t0 in_transactionId tr2)).2.2
          = tr2 ++ B ++ [Event.waitForPullUp t0,
              Event.setCurrentUsbFunctionsCb functions
                (if E.waitForPullUp (tr2 ++ B) t0 = true then Status.SUCCESS
                  else Status.ERROR) in_transactionId] ++
            (if (cb.setCurrentUsbFunctionsCb (tr2 ++ B ++ [Event.waitForPullUp t0]) functions
                (if E.waitForPullUp (tr2 ++ B) t0 = true then Status.SUCCESS
                  else Status.ERROR) in_transactionId).isOk = true then []
              else [Event.setCurrentUsbFunctionsCb functions Status.ERROR
                in_transactionId]))) := by
  rw [setupFunctions_eq]
  obtain ⟨l, hl, hl2⟩ := linkStage_trace G E functions tr2
  have hq : ∀ e ∈ l, e.isCb = false ∧ e.isWait = false := fun e he =>
    isLink_quiet e (hl2 e he)
  generalize linkStage G E functions tr2 = ls at hl ⊢
  obtain ⟨failed, ffs, tr3⟩ := ls
  simp only at hl
  subst hl
  cases failed with
  | true =>
    refine ⟨l, hq, Or.inl ⟨Status.ERROR, ?_⟩⟩
    simp [setCurrentUsbFunctionsFinish, setCurrentUsbFunctionsError]
  | false =>
    cases ffs with
    | false =>
      refine ⟨l ++ [Event.WriteStringToFile E.kGadgetName E.PULLUP_PATH], ?_, Or.inl ?_⟩
      · intro e he
        rcases List.mem_append.1 he with he | he
        · exact hq e he
        · rw [List.mem_singleton.1 he]
          exact ⟨rfl, rfl⟩
      · by_cases hw : E.WriteStringToFile (tr2 ++ l) E.kGadgetName E.PULLUP_PATH = true
        · exact ⟨Status.SUCCESS, by
            simp [setCurrentUsbFunctionsFinish, setCurrentUsbFunctionsError, pullUpStage, hw]⟩
        · exact ⟨Status.ERROR, by
            simp [setCurrentUsbFunctionsFinish, setCurrentUsbFunctionsError, pullUpStage, hw]⟩
    | true =>
      refine ⟨l ++ [Event.registerFunctionsAppliedCallback, Event.startMonitor], ?_,
        Or.inr ?_⟩
      · intro e he
        rcases List.mem_append.1 he with he | he
        · exact hq e he
        · simp at he
          rcases he with rfl | rfl <;> exact ⟨rfl, rfl⟩
      · by_cases hok : (cb.setCurrentUsbFunctionsCb
            (tr2 ++ (l ++ [Event.registerFunctionsAppliedCallback, Event.startMonitor])
              ++ [Event.waitForPullUp t0]) functions
            (if E.waitForPullUp
                (tr2 ++ (l ++ [Event.registerFunctionsAppliedCallback, Event.startMonitor])) t0
                = true then Status.SUCCESS else Status.ERROR) in_transactionId).isOk = true
        · rw [if_pos hok]
          simp only [List.append_assoc, List.cons_append, List.nil_append] at hok
          simp [setCurrentUsbFunctionsFinish, setCurrentUsbFunctionsError, pullUpStage, hok]
        · rw [if_neg hok]
          simp only [List.append_assoc, List.cons_append, List.nil_append,
            Bool.not_eq_true] at hok
          simp [setCurrentUsbFunctionsFinish, setCurrentUsbFunctionsError, pullUpStage, hok]

/-- Shape of the trace of a request with a callback: after events that are neither
invocations of the callback nor waits, either one invocation, or the wait on the
monitor, the invocation with the outcome of the wait and, when the transport of that
invocation failed, a second invocation with ERROR; on the second path functionsApplied
is on return what the wait returned. -/
theorem setCurrentUsbFunctions_shape (G : GadgetFunction) (E : Env) (functions : Int)
    (cb : IUsbGadgetCallback) (timeout in_transactionId : Int) (tr : List Event) :
    ∃ A, (∀ e ∈ A, e.isCb = false ∧ e.isWait = false) ∧
      ((∃ st, (setCurrentUsbFunctions G E functions (some cb) timeout in_transactionId tr).2.2
          = tr ++ A ++ [Event.setCurrentUsbFunctionsCb functions st in_transactionId]) ∨
       ((setCurrentUsbFunctions G E functions (some cb) timeout
            in_transactionId tr).2.1.mCurrentUsbFunctionsApplied
          = E.waitForPullUp (tr ++ A) (timeout % 2 ^ 64).toNat ∧
        (setCurrentUsbFunctions G E functions (some cb) timeout in_transactionId tr).2.2
          = tr ++ A ++ [Event.waitForPullUp (timeout % 2 ^ 64).toNat,
              Event.setCurrentUsbFunctionsCb functions
                (if E.waitForPullUp (tr ++ A) (timeout % 2 ^ 64).toNat = true
                  then Status.SUCCESS else Status.ERROR) in_transactionId] ++
            (if (cb.setCurrentUsbFunctionsCb
                (tr ++ A ++ [Event.waitForPullUp (timeout % 2 ^ 64).toNat]) functions
                (if E.waitForPullUp (tr ++ A) (timeout % 2 ^ 64).toNat = true
                  then Status.SUCCESS else Status.ERROR) in_transactionId).isOk = true
              then []
              else [Event.setCurrentUsbFunctionsCb functions Status.ERROR
                in_transactionId]))) := by
  by_cases hreset : E.resetGadget tr = Status.SUCCESS
  swap
  · refine ⟨[Event.resetGadget], ?_, Or.inl ⟨Status.ERROR, ?_⟩⟩
    · intro e he
      rw [List.mem_singleton.1 he]
      exact ⟨rfl, rfl⟩
    · simp [setCurrentUsbFunctions, tearDownGadget_failed E tr hreset,
        setCurrentUsbFunctionsError]
  have hD : ∃ D, tr ++ [Event.resetGadget] ++
      (if E.isMonitorRunning (tr ++ [Event.resetGadget]) = true then [Event.monitorReset]
        else []) ++ [Event.usleep E.kDisconnectWaitUs] = tr ++ D ∧
      ∀ e ∈ D, e.isCb = false ∧ e.isWait = false := by
    refine ⟨[Event.resetGadget] ++
      (if E.isMonitorRunning (tr ++ [Event.resetGadget]) = true then [Event.monitorReset]
        else []) ++ [Event.usleep E.kDisconnectWaitUs], by simp, ?_⟩
    intro e he
    split_ifs at he <;> simp at he <;> rcases he with rfl | rfl | rfl <;> exact ⟨rfl, rfl⟩
  obtain ⟨D, hD, hDq⟩ := hD
  by_cases hnone : functions = G.NONE
  · refine ⟨D, hDq, Or.inl ⟨Status.SUCCESS, ?_⟩⟩
    rw [← hD]
    simp [setCurrentUsbFunctions, tearDownGadget_ok E tr hreset, hnone]
  rw [setCurrentUsbFunctions_after_teardown G E functions (some cb) timeout in_transactionId
    tr (tr ++ D) hreset hnone hD.symm]
  rcases validateAndSetVidPid_shape G E functions (tr ++ D) with hv | ⟨vid, pid, hv⟩
  · refine ⟨D, hDq, Or.inl ⟨Status.CONFIGURATION_NOT_SUPPORTED, ?_⟩⟩
    simp [hv, setCurrentUsbFunctionsError]
  rw [hv]
  have hDv : ∀ e ∈ D ++ [Event.setVidPid vid pid], e.isCb = false ∧ e.isWait = false := by
    intro e he
    rcases List.mem_append.1 he with he | he
    · exact hDq e he
    · rw [List.mem_singleton.1 he]
      exact ⟨rfl, rfl⟩
  by_cases hs : E.setVidPid (tr ++ D) vid pid = Status.SUCCESS
  swap
  · refine ⟨D ++ [Event.setVidPid vid pid], hDv,
      Or.inl ⟨E.setVidPid (tr ++ D) vid pid, ?_⟩⟩
    simp [setVidPid, hs, setCurrentUsbFunctionsError]
  have hs2 : ¬ (setVidPid E (tr ++ D) vid pid).1 ≠ Status.SUCCESS := not_not.2 hs
  rw [if_neg hs2]
  obtain ⟨B, hBq, hB⟩ := setCurrentUsbFunctionsFinish_shape G E
    { mCurrentUsbFunctions := functions, mCurrentUsbFunctionsApplied := false } functions cb
    (timeout % 2 ^ 64).toNat in_transactionId (setVidPid E (tr ++ D) vid pid).2
  refine ⟨D ++ [Event.setVidPid vid pid] ++ B, ?_, ?_⟩
  · intro e he
    rcases List.mem_append.1 he with he | he
    · exact hDv e he
    · exact hBq e he
  · rcases hB with ⟨st, hst⟩ | ⟨hg, htrace⟩
    · refine Or.inl ⟨st, ?_⟩
      rw [hst]
      simp [setVidPid]
    · refine Or.inr ⟨?_, ?_⟩
      · rw [hg]
        simp only [setVidPid, List.append_assoc]
        generalize E.waitForPullUp _ _ = w
        cases w <;> rfl
      · rw [htrace]
        simp [setVidPid]

theorem cbCount_quiet (A : List Event) (h : ∀ e ∈ A, e.isCb = false ∧ e.isWait = false) :
    cbCount A = 0 := by
  unfold cbCount
  rw [List.countP_eq_zero]
  intro e he
  simp [(h e he).1]

theorem cbStatuses_append (a b : List Event) :
    cbStatuses (a ++ b) = cbStatuses a ++ cbStatuses b := by
  induction a with
  | nil => rfl
  | cons e a ih =>
    cases e <;> simp [cbStatuses, ih]

theorem cbStatuses_quiet (A : List Event) (h : ∀ e ∈ A, e.isCb = false ∧ e.isWait = false) :
    cbStatuses A = [] := by
  induction A with
  | nil => rfl
  | cons e A ih =>
    have he := (h e (List.mem_cons_self e A)).1
    have ih2 := ih (fun x hx => h x (List.mem_cons_of_mem e hx))
    cases e <;> simp_all [cbStatuses, Event.isCb]

/-- A list with exactly one wait splits around it in one way only. -/
theorem split_at_wait (a b pre post : List Event) (x y : Event)
    (hx : x.isWait = true) (ha : ∀ e ∈ a, e.isWait = false) (hb : ∀ e ∈ b, e.isWait = false)
    (h : pre ++ x :: post = a ++ y :: b) : pre = a ∧ x = y ∧ post = b := by
  induction a generalizing pre with
  | nil =>
    cases pre with
    | nil =>
      simp only [List.nil_append, List.cons.injEq] at h
      exact ⟨rfl, h.1, h.2⟩
    | cons p pre =>
      simp only [List.cons_append, List.nil_append, List.cons.injEq] at h
      have hmem : x ∈ b := by
        rw [← h.2]
        simp
      have := hb x hmem
      rw [hx] at this
      cases this
  | cons a0 a ih =>
    cases pre with
    | nil =>
      simp only [List.nil_append, List.cons_append, List.cons.injEq] at h
      have := ha a0 (List.mem_cons_self a0 a)
      rw [← h.1, hx] at this
      cases this
    | cons p pre =>
      simp only [List.cons_append, List.cons.injEq] at h
      obtain ⟨h1, h2, h3⟩ := ih pre (fun e he => ha e (List.mem_cons_of_mem a0 he)) h.2
      exact ⟨by rw [h.1, h1], h2, h3⟩

/-- The linking part when the generic functions and every vendor link succeed. -/
theorem linkStage_ok (G : GadgetFunction) (E : Env) (functions : Int) (tr : List Event)
    (ffs : Bool) (i0 : Int)
    (hgen : E.addGenericAndroidFunctions tr functions false 0 = (Status.SUCCESS, ffs, i0))
    (hlinks : ∀ pre p post,
      (strtok (E.getVendorFunctions
        (tr ++ [Event.addGenericAndroidFunctions functions false 0]))).filterMap vendorPath
        = pre ++ p :: post →
      E.linkFunction
        (tr ++ [Event.addGenericAndroidFunctions functions false 0] ++ linkEvents i0 pre)
        p (i0 + pre.length) = 0) :
    linkStage G E functions tr
      = if Int.land functions G.ADB ≠ 0 then
          (decide ((E.addAdb
            (tr ++ [Event.addGenericAndroidFunctions functions false 0] ++ linkEvents i0
              ((strtok (E.getVendorFunctions
                (tr ++ [Event.addGenericAndroidFunctions functions false 0]))).filterMap
                  vendorPath))
            (i0 + ((strtok (E.getVendorFunctions
                (tr ++ [Event.addGenericAndroidFunctions functions false 0]))).filterMap
                  vendorPath).length)).1 ≠ Status.SUCCESS), true,
            tr ++ [Event.addGenericAndroidFunctions functions false 0] ++ linkEvents i0
              ((strtok (E.getVendorFunctions
                (tr ++ [Event.addGenericAndroidFunctions functions false 0]))).filterMap
                  vendorPath) ++
            [Event.addAdb (i0 + ((strtok (E.getVendorFunctions
                (tr ++ [Event.addGenericAndroidFunctions functions false 0]))).filterMap
                  vendorPath).length)])
        else
          (false, ffs,
            tr ++ [Event.addGenericAndroidFunctions functions false 0] ++ linkEvents i0
              ((strtok (E.getVendorFunctions
                (tr ++ [Event.addGenericAndroidFunctions functions false 0]))).filterMap
                  vendorPath)) := by
  simp only [linkStage, hgen, linkVendorFunctions_eq, linkPaths_ok E _ i0 _ hlinks, ne_eq,
    not_true_eq_false, if_false, Bool.false_eq_true]

theorem linkEvents_mem (i : Int) (ps : List String) (e : Event) (h : e ∈ linkEvents i ps) :
    ∃ p k, e = Event.linkFunction p k := by
  induction ps generalizing i with
  | nil => simp [linkEvents] at h
  | cons p ps ih =>
    simp only [linkEvents, List.mem_cons] at h
    rcases h with rfl | h
    · exact ⟨p, i, rfl⟩
    · exact ih (i + 1) h

/-! ## Requests for NONE and failed teardown -/

/-- C6: when teardown succeeds and the requested set is NONE, the events of the call
are the reset, the monitor reset if the monitor was running, the settle delay and, with a
callback, one invocation with (NONE, SUCCESS, transactionId); there is no VID/PID
write, no link, no monitor start and no write to the pull-up file, and functionsApplied
is false.  Without a callback nothing is reported and the call returns the error
"callback == NULL". -/
theorem setCurrentUsbFunctions_none (G : GadgetFunction) (E : Env)
    (callback : Option IUsbGadgetCallback) (timeout in_transactionId : Int)
    (tr : List Event) (hreset : E.resetGadget tr = Status.SUCCESS) :
    (setCurrentUsbFunctions G E G.NONE callback timeout in_transactionId tr).2.1
      = { mCurrentUsbFunctions := G.NONE, mCurrentUsbFunctionsApplied := false } ∧
    (∃ new, (setCurrentUsbFunctions G E G.NONE callback timeout in_transactionId tr).2.2
        = tr ++ new ∧
      (∀ e ∈ new, e.isSetVidPid = false ∧ e.isLink = false ∧ e.isMonitorStart = false ∧
        e.isWrite = false) ∧
      (∀ cb, callback = some cb →
        new.filter Event.isCb
          = [Event.setCurrentUsbFunctionsCb G.NONE Status.SUCCESS in_transactionId]) ∧
      (callback = none → new.filter Event.isCb = [])) ∧
    (callback = none →
      (setCurrentUsbFunctions G E G.NONE callback timeout in_transactionId tr).1
        = ScopedAStatus.fromServiceSpecificErrorWithMessage (-1) "callback == NULL") := by
  have ht := tearDownGadget_ok E tr hreset
  cases callback with
  | none =>
    refine ⟨by simp [setCurrentUsbFunctions, ht], ⟨[Event.resetGadget] ++
      (if E.isMonitorRunning (tr ++ [Event.resetGadget]) = true then [Event.monitorReset]
        else []) ++ [Event.usleep E.kDisconnectWaitUs], ?_, ?_, ?_, ?_⟩, ?_⟩
    · simp [setCurrentUsbFunctions, ht]
    · intro e he
      split_ifs at he <;> simp at he <;> rcases he with rfl | rfl | rfl <;> simp [Event.isSetVidPid, Event.isLink, Event.isMonitorStart, Event.isWrite]
    · intro cb hcb
      cases hcb
    · intro _
      split_ifs <;> simp [List.filter, Event.isCb]
    · intro _
      simp [setCurrentUsbFunctions, ht]
  | some cb =>
    refine ⟨by simp [setCurrentUsbFunctions, ht], ⟨[Event.resetGadget] ++
      (if E.isMonitorRunning (tr ++ [Event.resetGadget]) = true then [Event.monitorReset]
        else []) ++ [Event.usleep E.kDisconnectWaitUs] ++
        [Event.setCurrentUsbFunctionsCb G.NONE Status.SUCCESS in_transactionId],
        ?_, ?_, ?_, ?_⟩, ?_⟩
    · simp [setCurrentUsbFunctions, ht]
    · intro e he
      split_ifs at he <;> simp at he <;> rcases he with rfl | rfl | rfl | rfl <;> simp [Event.isSetVidPid, Event.isLink, Event.isMonitorStart, Event.isWrite]
    · intro _ _
      split_ifs <;> simp [List.filter, Event.isCb]
    · intro h
      cases h
    · intro h
      cases h

theorem setCurrentUsbFunctions_none_witness :
    setCurrentUsbFunctions aidlGadgetFunction (okEnv "" false) 0 (some okCallback) 1000 7 []
      = (ScopedAStatus.fromServiceSpecificErrorWithMessage (-1)
          "Error while calling setCurrentUsbFunctionsCb",
        { mCurrentUsbFunctions := 0, mCurrentUsbFunctionsApplied := false },
        [Event.resetGadget, Event.usleep 100000,
          Event.setCurrentUsbFunctionsCb 0 Status.SUCCESS 7]) ∧
    (setCurrentUsbFunctions aidlGadgetFunction (okEnv "" false) 0 none 1000 7 []).1
      = ScopedAStatus.fromServiceSpecificErrorWithMessage (-1) "callback == NULL" :=
  ⟨by decide,
   (setCurrentUsbFunctions_none aidlGadgetFunction (okEnv "" false) none 1000 7 [] rfl).2.2
     rfl⟩

/-- C7: when teardown fails, for every requested set the events of the call are the
reset and, with a callback, one invocation with the generic ERROR; there is no VID/PID
write, no link, no monitor start, no pull-up write and no monitor reset, and
functionsApplied is false on return. -/
theorem setCurrentUsbFunctions_teardown_failed (G : GadgetFunction) (E : Env)
    (functions : Int) (callback : Option IUsbGadgetCallback)
    (timeout in_transactionId : Int) (tr : List Event)
    (hreset : E.resetGadget tr ≠ Status.SUCCESS) :
    (setCurrentUsbFunctions G E functions callback timeout in_transactionId tr).2.1
      = { mCurrentUsbFunctions := functions, mCurrentUsbFunctionsApplied := false } ∧
    (∃ new, (setCurrentUsbFunctions G E functions callback timeout in_transactionId tr).2.2
        = tr ++ new ∧
      (∀ e ∈ new, e.isSetVidPid = false ∧ e.isLink = false ∧ e.isMonitorStart = false ∧
        e.isWrite = false ∧ e ≠ Event.monitorReset) ∧
      (∀ cb, callback = some cb →
        new = [Event.resetGadget,
          Event.setCurrentUsbFunctionsCb functions Status.ERROR in_transactionId]) ∧
      (callback = none → new = [Event.resetGadget])) := by
  have ht := tearDownGadget_failed E tr hreset
  cases callback with
  | none =>
    refine ⟨by simp [setCurrentUsbFunctions, ht, setCurrentUsbFunctionsError],
      [Event.resetGadget], by simp [setCurrentUsbFunctions, ht, setCurrentUsbFunctionsError],
      ?_, ?_, ?_⟩
    · intro e he
      simp at he
      subst he
      simp [Event.isSetVidPid, Event.isLink, Event.isMonitorStart, Event.isWrite]
    · intro cb hcb
      cases hcb
    · intro _
      rfl
  | some cb =>
    refine ⟨by simp [setCurrentUsbFunctions, ht, setCurrentUsbFunctionsError],
      [Event.resetGadget,
        Event.setCurrentUsbFunctionsCb functions Status.ERROR in_transactionId],
      by simp [setCurrentUsbFunctions, ht, setCurrentUsbFunctionsError], ?_, ?_, ?_⟩
    · intro e he
      simp at he
      rcases he with rfl | rfl <;>
        simp [Event.isSetVidPid, Event.isLink, Event.isMonitorStart, Event.isWrite]
    · intro _ _
      rfl
    · intro h
      cases h

theorem setCurrentUsbFunctions_teardown_failed_witness :
    setCurrentUsbFunctions aidlGadgetFunction
        { okEnv "" false with resetGadget := fun _ => Status.ERROR } 5 (some okCallback)
        1000 7 []
      = (ScopedAStatus.fromServiceSpecificErrorWithMessage (-1)
          "Error while calling setCurrentUsbFunctionsCb",
        { mCurrentUsbFunctions := 5, mCurrentUsbFunctionsApplied := false },
        [Event.resetGadget, Event.setCurrentUsbFunctionsCb 5 Status.ERROR 7]) ∧
    (setCurrentUsbFunctions aidlGadgetFunction
        { okEnv "" false with resetGadget := fun _ => Status.ERROR } 5 (some okCallback)
        1000 7 []).2.1.mCurrentUsbFunctionsApplied = false :=
  ⟨by decide,
   congrArg Gadget.mCurrentUsbFunctionsApplied
     (setCurrentUsbFunctions_teardown_failed aidlGadgetFunction
       { okEnv "" false with resetGadget := fun _ => Status.ERROR } 5 (some okCallback)
       1000 7 [] (by decide)).1⟩

/-! ## Delivery of the outcome -/

/-- C5: the outcome is not delivered exactly once on the monitored path.  ADB is
requested, every operation succeeds and the monitor confirms the pull-up, but the
transport of the callback fails: `setupFunctions` has already invoked the callback with
SUCCESS, returns ERROR, and the `error:` label of `setCurrentUsbFunctions` invokes it a
second time with ERROR.  The callback is invoked twice during the call, with two
different outcomes, although the pull-up succeeded. -/
theorem setCurrentUsbFunctions_callback_twice :
    (setCurrentUsbFunctions aidlGadgetFunction (okEnv "" false) 1 (some deadCallback)
        1000 7 []).2.2
      = [Event.resetGadget, Event.usleep 100000, Event.setVidPid "0x18d1" "0x4ee7",
          Event.addGenericAndroidFunctions 1 false 0, Event.addAdb 1,
          Event.registerFunctionsAppliedCallback, Event.startMonitor,
          Event.waitForPullUp 1000, Event.setCurrentUsbFunctionsCb 1 Status.SUCCESS 7,
          Event.setCurrentUsbFunctionsCb 1 Status.ERROR 7] ∧
    cbCount (setCurrentUsbFunctions aidlGadgetFunction (okEnv "" false) 1
        (some deadCallback) 1000 7 []).2.2 = 2 ∧
    cbStatuses (setCurrentUsbFunctions aidlGadgetFunction (okEnv "" false) 1
        (some deadCallback) 1000 7 []).2.2 = [Status.SUCCESS, Status.ERROR] := by
  decide

/-- Number of invocations of the callback in a request with a callback: at least one
and at most two; exactly one when the transport of the callback never fails; and when
there are two, they are the last events of the call, they follow the wait on the
monitor, and the second one carries ERROR.  The sites that invoke the callback outside
the monitored path of `setupFunctions` never cause a second invocation. -/
theorem setCurrentUsbFunctions_callback_count (G : GadgetFunction) (E : Env)
    (functions : Int) (cb : IUsbGadgetCallback) (timeout in_transactionId : Int)
    (tr : List Event) :
    ∃ new, (setCurrentUsbFunctions G E functions (some cb) timeout in_transactionId tr).2.2
        = tr ++ new ∧
      (cbCount new = 1 ∨ cbCount new = 2) ∧
      ((∀ h f s t, (cb.setCurrentUsbFunctionsCb h f s t).isOk = true) → cbCount new = 1) ∧
      (cbCount new = 2 → ∃ pre st, new = pre ++
        [Event.waitForPullUp (timeout % 2 ^ 64).toNat,
          Event.setCurrentUsbFunctionsCb functions st in_transactionId,
          Event.setCurrentUsbFunctionsCb functions Status.ERROR in_transactionId]) := by
  obtain ⟨A, hA, h⟩ := setCurrentUsbFunctions_shape G E functions cb timeout
    in_transactionId tr
  have hA0 := cbCount_quiet A hA
  unfold cbCount at hA0
  rcases h with ⟨st, hst⟩ | ⟨_, htrace⟩
  · refine ⟨A ++ [Event.setCurrentUsbFunctionsCb functions st in_transactionId],
      by rw [hst, List.append_assoc], ?_⟩
    have hc : cbCount (A ++ [Event.setCurrentUsbFunctionsCb functions st in_transactionId])
        = 1 := by
      simp [cbCount, List.countP_append, hA0, Event.isCb]
    refine ⟨Or.inl hc, fun _ => hc, fun h2 => ?_⟩
    rw [hc] at h2
    cases h2
  · by_cases hok : (cb.setCurrentUsbFunctionsCb
        (tr ++ A ++ [Event.waitForPullUp (timeout % 2 ^ 64).toNat]) functions
        (if E.waitForPullUp (tr ++ A) (timeout % 2 ^ 64).toNat = true
          then Status.SUCCESS else Status.ERROR) in_transactionId).isOk = true
    · rw [if_pos hok] at htrace
      refine ⟨A ++ [Event.waitForPullUp (timeout % 2 ^ 64).toNat,
        Event.setCurrentUsbFunctionsCb functions
          (if E.waitForPullUp (tr ++ A) (timeout % 2 ^ 64).toNat = true
            then Status.SUCCESS else Status.ERROR) in_transactionId],
        by rw [htrace]; simp, ?_⟩
      have hc : cbCount (A ++ [Event.waitForPullUp (timeout % 2 ^ 64).toNat,
          Event.setCurrentUsbFunctionsCb functions
            (if E.waitForPullUp (tr ++ A) (timeout % 2 ^ 64).toNat = true
              then Status.SUCCESS else Status.ERROR) in_transactionId]) = 1 := by
        simp [cbCount, List.countP_append, hA0, Event.isCb, List.countP_cons]
      refine ⟨Or.inl hc, fun _ => hc, fun h2 => ?_⟩
      rw [hc] at h2
      cases h2
    · rw [if_neg hok] at htrace
      refine ⟨A ++ [Event.waitForPullUp (timeout % 2 ^ 64).toNat,
        Event.setCurrentUsbFunctionsCb functions
          (if E.waitForPullUp (tr ++ A) (timeout % 2 ^ 64).toNat = true
            then Status.SUCCESS else Status.ERROR) in_transactionId,
        Event.setCurrentUsbFunctionsCb functions Status.ERROR in_transactionId],
        by rw [htrace]; simp, ?_⟩
      have hc : cbCount (A ++ [Event.waitForPullUp (timeout % 2 ^ 64).toNat,
          Event.setCurrentUsbFunctionsCb functions
            (if E.waitForPullUp (tr ++ A) (timeout % 2 ^ 64).toNat = true
              then Status.SUCCESS else Status.ERROR) in_transactionId,
          Event.setCurrentUsbFunctionsCb functions Status.ERROR in_transactionId]) = 2 := by
        simp [cbCount, List.countP_append, hA0, Event.isCb, List.countP_cons]
      refine ⟨Or.inr hc, fun hall => absurd (hall _ _ _ _) hok, fun _ => ⟨A, _, rfl⟩⟩

/-- A call of `setupFunctions` with a callback whose links all succeed and whose final
function set needs descriptor writing (ADB is requested and linked, or the generic
functions set `ffsEnabled`) registers the callback, starts the monitor, waits, and
reports the outcome of the wait to the callback. -/
theorem setupFunctions_monitored (G : GadgetFunction) (E : Env) (g : Gadget)
    (functions : Int) (cb : IUsbGadgetCallback) (t0 : Nat) (in_transactionId : Int)
    (tr2 tr3 : List Event) (ffs : Bool) (i0 : Int) (paths : List String)
    (hgen : E.addGenericAndroidFunctions tr2 functions false 0 = (Status.SUCCESS, ffs, i0))
    (hpaths : paths = (strtok (E.getVendorFunctions
      (tr2 ++ [Event.addGenericAndroidFunctions functions false 0]))).filterMap vendorPath)
    (hlinks : ∀ pre p post, paths = pre ++ p :: post →
      E.linkFunction
        (tr2 ++ [Event.addGenericAndroidFunctions functions false 0] ++ linkEvents i0 pre)
        p (i0 + pre.length) = 0)
    (hffs : if Int.land functions G.ADB ≠ 0 then
        (E.addAdb
          (tr2 ++ [Event.addGenericAndroidFunctions functions false 0] ++ linkEvents i0 paths)
          (i0 + paths.length)).1 = Status.SUCCESS
      else ffs = true)
    (htr3 : tr3 = tr2 ++ [Event.addGenericAndroidFunctions functions false 0]
      ++ linkEvents i0 paths
      ++ (if Int.land functions G.ADB ≠ 0 then [Event.addAdb (i0 + paths.length)] else [])
      ++ [Event.registerFunctionsAppliedCallback, Event.startMonitor]) :
    setupFunctions G E g functions (some cb) t0 in_transactionId tr2
      = (if (cb.setCurrentUsbFunctionsCb (tr3 ++ [Event.waitForPullUp t0]) functions
              (if E.waitForPullUp tr3 t0 = true then Status.SUCCESS else Status.ERROR)
              in_transactionId).isOk = true then Status.SUCCESS else Status.ERROR,
          waitForPullUpEffect (E.waitForPullUp tr3 t0) g,
          tr3 ++ [Event.waitForPullUp t0,
            Event.setCurrentUsbFunctionsCb functions
              (if E.waitForPullUp tr3 t0 = true then Status.SUCCESS else Status.ERROR)
              in_transactionId]) := by
  subst hpaths
  have hls := linkStage_ok G E functions tr2 ffs i0 hgen hlinks
  generalize (strtok (E.getVendorFunctions
    (tr2 ++ [Event.addGenericAndroidFunctions functions false 0]))).filterMap vendorPath
    = paths at hls hffs htr3
  rw [setupFunctions_eq, hls]
  by_cases hadb : Int.land functions G.ADB ≠ 0
  · rw [if_pos hadb] at hffs htr3 ⊢
    subst htr3
    have hd : decide ((E.addAdb
        (tr2 ++ [Event.addGenericAndroidFunctions functions false 0] ++ linkEvents i0 paths)
        (i0 + paths.length)).1 ≠ Status.SUCCESS) = false := by
      rw [hffs]
      rfl
    rw [hd]
    simp only [Bool.false_eq_true, if_false, pullUpStage, not_true_eq_false]
    simp only [List.append_assoc, List.cons_append, List.nil_append]
    generalize (cb.setCurrentUsbFunctionsCb _ _ _ _).isOk = ok
    cases ok <;> rfl
  · rw [if_neg hadb] at hffs htr3 ⊢
    subst htr3 hffs
    simp only [Bool.false_eq_true, if_false, pullUpStage, not_true_eq_false]
    simp only [List.append_assoc, List.cons_append, List.nil_append, List.append_nil]
    generalize (cb.setCurrentUsbFunctionsCb _ _ _ _).isOk = ok
    cases ok <;> rfl

theorem cbStatuses_linkEvents (i : Int) (ps : List String) :
    cbStatuses (linkEvents i ps) = [] := by
  apply cbStatuses_quiet
  intro e he
  obtain ⟨p, k, rfl⟩ := linkEvents_mem i ps e he
  exact ⟨rfl, rfl⟩

/-- C8: a request with a callback, after a successful teardown and VID/PID write, whose
links all succeed and whose final function set needs descriptor writing (ADB is
requested and linked, or the generic functions set `ffsEnabled`), registers and starts
the monitor and waits.  If that call of `waitForPullUp` returns false, the callback
receives ERROR (once, and a second time if the transport of the first invocation
failed) and never SUCCESS, and functionsApplied, set to false when the request was
accepted, is false when `setCurrentUsbFunctions` returns. -/
theorem setCurrentUsbFunctions_pullup_timeout (G : GadgetFunction) (E : Env)
    (functions : Int) (cb : IUsbGadgetCallback) (timeout in_transactionId : Int)
    (tr tr1 tr2 tr3 : List Event) (ffs : Bool) (i0 : Int) (paths : List String)
    (hreset : E.resetGadget tr = Status.SUCCESS)
    (hnone : functions ≠ G.NONE)
    (htr1 : tr1 = (tearDownGadget E tr).2 ++ [Event.usleep E.kDisconnectWaitUs])
    (hvalid : (validateAndSetVidPid G E functions tr1).1 = Status.SUCCESS)
    (htr2 : tr2 = (validateAndSetVidPid G E functions tr1).2)
    (hgen : E.addGenericAndroidFunctions tr2 functions false 0 = (Status.SUCCESS, ffs, i0))
    (hpaths : paths = (strtok (E.getVendorFunctions
      (tr2 ++ [Event.addGenericAndroidFunctions functions false 0]))).filterMap vendorPath)
    (hlinks : ∀ pre p post, paths = pre ++ p :: post →
      E.linkFunction
        (tr2 ++ [Event.addGenericAndroidFunctions functions false 0] ++ linkEvents i0 pre)
        p (i0 + pre.length) = 0)
    (hffs : if Int.land functions G.ADB ≠ 0 then
        (E.addAdb
          (tr2 ++ [Event.addGenericAndroidFunctions functions false 0] ++ linkEvents i0 paths)
          (i0 + paths.length)).1 = Status.SUCCESS
      else ffs = true)
    (htr3 : tr3 = tr2 ++ [Event.addGenericAndroidFunctions functions false 0]
      ++ linkEvents i0 paths
      ++ (if Int.land functions G.ADB ≠ 0 then [Event.addAdb (i0 + paths.length)] else [])
      ++ [Event.registerFunctionsAppliedCallback, Event.startMonitor])
    (hwait : E.waitForPullUp tr3 (timeout % 2 ^ 64).toNat = false) :
    (setCurrentUsbFunctions G E functions (some cb) timeout in_transactionId tr).2.2
      = tr3 ++ [Event.waitForPullUp (timeout % 2 ^ 64).toNat,
          Event.setCurrentUsbFunctionsCb functions Status.ERROR in_transactionId] ++
        (if (cb.setCurrentUsbFunctionsCb
            (tr3 ++ [Event.waitForPullUp (timeout % 2 ^ 64).toNat]) functions Status.ERROR
            in_transactionId).isOk = true then []
          else [Event.setCurrentUsbFunctionsCb functions Status.ERROR in_transactionId]) ∧
    (∃ new,
      (setCurrentUsbFunctions G E functions (some cb) timeout in_transactionId tr).2.2
        = tr ++ new ∧
      Status.ERROR ∈ cbStatuses new ∧ Status.SUCCESS ∉ cbStatuses new ∧
      ∀ s ∈ cbStatuses new, s = Status.ERROR) ∧
    (setCurrentUsbFunctions G E functions (some cb) timeout
      in_transactionId tr).2.1.mCurrentUsbFunctionsApplied = false := by
  have ht := tearDownGadget_ok E tr hreset
  rw [ht] at htr1
  simp only at htr1
  have hr : setCurrentUsbFunctions G E functions (some cb) timeout in_transactionId tr
      = setCurrentUsbFunctionsFinish functions (some cb) in_transactionId
          (setupFunctions G E
            { mCurrentUsbFunctions := functions, mCurrentUsbFunctionsApplied := false }
            functions (some cb) (timeout % 2 ^ 64).toNat in_transactionId tr2) := by
    rw [setCurrentUsbFunctions_after_teardown G E functions (some cb) timeout
      in_transactionId tr tr1 hreset hnone htr1, if_neg (not_not.2 hvalid), ← htr2]
  have hm := setupFunctions_monitored G E
    { mCurrentUsbFunctions := functions, mCurrentUsbFunctionsApplied := false } functions cb
    (timeout % 2 ^ 64).toNat in_transactionId tr2 tr3 ffs i0 paths hgen hpaths hlinks hffs htr3
  rw [hm, hwait] at hr
  simp only [Bool.false_eq_true, if_false] at hr
  have htr3' : ∃ pre, tr3 = tr ++ pre ∧ cbStatuses pre = [] := by
    rcases validateAndSetVidPid_shape G E functions tr1 with hv | ⟨vid, pid, hv⟩
    · rw [hv] at hvalid
      cases hvalid
    · rw [hv] at htr2
      simp only [setVidPid] at htr2
      refine ⟨[Event.resetGadget] ++
        (if E.isMonitorRunning (tr ++ [Event.resetGadget]) = true then [Event.monitorReset]
          else []) ++ [Event.usleep E.kDisconnectWaitUs] ++ [Event.setVidPid vid pid]
        ++ [Event.addGenericAndroidFunctions functions false 0] ++ linkEvents i0 paths
        ++ (if Int.land functions G.ADB ≠ 0 then [Event.addAdb (i0 + paths.length)] else [])
        ++ [Event.registerFunctionsAppliedCallback, Event.startMonitor], ?_, ?_⟩
      · rw [htr3, htr2, htr1]
        simp only [List.append_assoc]
      · simp only [cbStatuses_append, cbStatuses_linkEvents]
        split_ifs <;> simp [cbStatuses]
  obtain ⟨pre, hpre, hpre0⟩ := htr3'
  rw [hr]
  generalize (cb.setCurrentUsbFunctionsCb
    (tr3 ++ [Event.waitForPullUp (timeout % 2 ^ 64).toNat]) functions Status.ERROR
    in_transactionId).isOk = ok
  cases ok with
  | true =>
    refine ⟨by simp [setCurrentUsbFunctionsFinish], ⟨pre ++
      [Event.waitForPullUp (timeout % 2 ^ 64).toNat,
        Event.setCurrentUsbFunctionsCb functions Status.ERROR in_transactionId], ?_, ?_⟩, ?_⟩
    · simp [setCurrentUsbFunctionsFinish, hpre]
    · simp [cbStatuses_append, hpre0, cbStatuses]
    · simp [setCurrentUsbFunctionsFinish, waitForPullUpEffect]
  | false =>
    refine ⟨by simp [setCurrentUsbFunctionsFinish, setCurrentUsbFunctionsError], ⟨pre ++
      [Event.waitForPullUp (timeout % 2 ^ 64).toNat,
        Event.setCurrentUsbFunctionsCb functions Status.ERROR in_transactionId,
        Event.setCurrentUsbFunctionsCb functions Status.ERROR in_transactionId], ?_, ?_⟩, ?_⟩
    · simp [setCurrentUsbFunctionsFinish, setCurrentUsbFunctionsError, hpre]
    · simp [cbStatuses_append, hpre0, cbStatuses]
    · simp [setCurrentUsbFunctionsFinish, setCurrentUsbFunctionsError, waitForPullUpEffect]

theorem setCurrentUsbFunctions_pullup_timeout_witness :
    (setCurrentUsbFunctions aidlGadgetFunction
        { okEnv "" false with waitForPullUp := fun _ _ => false } 1 (some okCallback)
        1000 7 []).2.2
      = [Event.resetGadget, Event.usleep 100000, Event.setVidPid "0x18d1" "0x4ee7",
          Event.addGenericAndroidFunctions 1 false 0, Event.addAdb 1,
          Event.registerFunctionsAppliedCallback, Event.startMonitor,
          Event.waitForPullUp 1000, Event.setCurrentUsbFunctionsCb 1 Status.ERROR 7] ∧
    (setCurrentUsbFunctions aidlGadgetFunction
        { okEnv "" false with waitForPullUp := fun _ _ => false } 1 (some okCallback)
        1000 7 []).2.1.mCurrentUsbFunctionsApplied = false ∧
    (setCurrentUsbFunctions aidlGadgetFunction (okEnv "" false) 1 (some okCallback)
        1000 7 []).2.1.mCurrentUsbFunctionsApplied = true :=
  have h := setCurrentUsbFunctions_pullup_timeout aidlGadgetFunction
    { okEnv "" false with waitForPullUp := fun _ _ => false } 1 okCallback 1000 7 []
    [Event.resetGadget, Event.usleep 100000]
    [Event.resetGadget, Event.usleep 100000, Event.setVidPid "0x18d1" "0x4ee7"]
    [Event.resetGadget, Event.usleep 100000, Event.setVidPid "0x18d1" "0x4ee7",
      Event.addGenericAndroidFunctions 1 false 0, Event.addAdb 1,
      Event.registerFunctionsAppliedCallback, Event.startMonitor]
    false 1 [] rfl (by decide) rfl rfl rfl rfl (by decide)
    (by
      intro pre p post h
      cases pre <;> cases h)
    (by decide) (by decide) rfl
  ⟨h.1, h.2.2, by decide⟩

/-! ## Pull-up without the monitor, and the order of the links -/

/-- C9: when the generic functions are linked with `ffsEnabled` left false, every vendor
link succeeds and ADB is not requested, `setupFunctions` writes the gadget name to the
pull-up file right after the links, with no call into the monitor.  If the write
succeeds, functionsApplied becomes true, the callback (if any) receives SUCCESS and
SUCCESS is returned; if the write fails, ERROR is returned, the callback is not invoked
and the controller state is unchanged, so functionsApplied is still false. -/
theorem setupFunctions_immediate_pullup (G : GadgetFunction) (E : Env) (g : Gadget)
    (functions : Int) (callback : Option IUsbGadgetCallback) (timeout : Nat)
    (in_transactionId : Int) (tr tr1 tr2 : List Event) (i0 : Int) (paths : List String)
    (hgen : E.addGenericAndroidFunctions tr functions false 0 = (Status.SUCCESS, false, i0))
    (htr1 : tr1 = tr ++ [Event.addGenericAndroidFunctions functions false 0])
    (hpaths : paths = (strtok (E.getVendorFunctions tr1)).filterMap vendorPath)
    (hlinks : ∀ pre p post, paths = pre ++ p :: post →
      E.linkFunction (tr1 ++ linkEvents i0 pre) p (i0 + pre.length) = 0)
    (hadb : Int.land functions G.ADB = 0)
    (htr2 : tr2 = tr1 ++ linkEvents i0 paths) :
    (E.WriteStringToFile tr2 E.kGadgetName E.PULLUP_PATH = true →
      setupFunctions G E g functions callback timeout in_transactionId tr
        = (Status.SUCCESS, { g with mCurrentUsbFunctionsApplied := true },
            tr2 ++ [Event.WriteStringToFile E.kGadgetName E.PULLUP_PATH] ++
              (match callback with
                | some _ =>
                  [Event.setCurrentUsbFunctionsCb functions Status.SUCCESS in_transactionId]
                | none => []))) ∧
    (E.WriteStringToFile tr2 E.kGadgetName E.PULLUP_PATH = false →
      setupFunctions G E g functions callback timeout in_transactionId tr
        = (Status.ERROR, g, tr2 ++ [Event.WriteStringToFile E.kGadgetName E.PULLUP_PATH])) ∧
    (E.WriteStringToFile tr2 E.kGadgetName E.PULLUP_PATH = false →
      g.mCurrentUsbFunctionsApplied = false →
      (setupFunctions G E g functions callback timeout
        in_transactionId tr).2.1.mCurrentUsbFunctionsApplied = false) ∧
    (∃ new, (setupFunctions G E g functions callback timeout in_transactionId tr).2.2
        = tr ++ new ∧ ∀ e ∈ new, e.isMonitorStart = false) := by
  subst htr1 hpaths htr2
  have hls := linkStage_ok G E functions tr false i0 hgen hlinks
  rw [if_neg (not_not.2 hadb)] at hls
  have h1 : E.WriteStringToFile
        (tr ++ [Event.addGenericAndroidFunctions functions false 0] ++ linkEvents i0
          ((strtok (E.getVendorFunctions
            (tr ++ [Event.addGenericAndroidFunctions functions false 0]))).filterMap
              vendorPath)) E.kGadgetName E.PULLUP_PATH = true →
      setupFunctions G E g functions callback timeout in_transactionId tr
        = (Status.SUCCESS, { g with mCurrentUsbFunctionsApplied := true },
            tr ++ [Event.addGenericAndroidFunctions functions false 0] ++ linkEvents i0
              ((strtok (E.getVendorFunctions
                (tr ++ [Event.addGenericAndroidFunctions functions false 0]))).filterMap
                  vendorPath) ++ [Event.WriteStringToFile E.kGadgetName E.PULLUP_PATH] ++
              (match callback with
                | some _ =>
                  [Event.setCurrentUsbFunctionsCb functions Status.SUCCESS in_transactionId]
                | none => [])) := by
    intro hw
    rw [setupFunctions_eq, hls]
    generalize tr ++ [Event.addGenericAndroidFunctions functions false 0] ++ linkEvents i0 _
      = tr2 at hw ⊢
    cases callback <;> simp [pullUpStage, hw]
  have h2 : E.WriteStringToFile
        (tr ++ [Event.addGenericAndroidFunctions functions false 0] ++ linkEvents i0
          ((strtok (E.getVendorFunctions
            (tr ++ [Event.addGenericAndroidFunctions functions false 0]))).filterMap
              vendorPath)) E.kGadgetName E.PULLUP_PATH = false →
      setupFunctions G E g functions callback timeout in_transactionId tr
        = (Status.ERROR, g,
            tr ++ [Event.addGenericAndroidFunctions functions false 0] ++ linkEvents i0
              ((strtok (E.getVendorFunctions
                (tr ++ [Event.addGenericAndroidFunctions functions false 0]))).filterMap
                  vendorPath) ++ [Event.WriteStringToFile E.kGadgetName E.PULLUP_PATH]) := by
    intro hw
    rw [setupFunctions_eq, hls]
    generalize tr ++ [Event.addGenericAndroidFunctions functions false 0] ++ linkEvents i0 _
      = tr2 at hw ⊢
    simp [pullUpStage, hw]
  refine ⟨h1, h2, fun hw hg => by rw [h2 hw]; exact hg, ?_⟩
  have hlk : ∀ e ∈ linkEvents i0
      ((strtok (E.getVendorFunctions
        (tr ++ [Event.addGenericAndroidFunctions functions false 0]))).filterMap vendorPath),
      e.isMonitorStart = false := by
    intro e he
    obtain ⟨p, k, rfl⟩ := linkEvents_mem _ _ e he
    rfl
  cases hw : E.WriteStringToFile
        (tr ++ [Event.addGenericAndroidFunctions functions false 0] ++ linkEvents i0
          ((strtok (E.getVendorFunctions
            (tr ++ [Event.addGenericAndroidFunctions functions false 0]))).filterMap
              vendorPath)) E.kGadgetName E.PULLUP_PATH with
  | false =>
    rw [h2 hw]
    refine ⟨[Event.addGenericAndroidFunctions functions false 0] ++ linkEvents i0
      ((strtok (E.getVendorFunctions
        (tr ++ [Event.addGenericAndroidFunctions functions false 0]))).filterMap vendorPath)
      ++ [Event.WriteStringToFile E.kGadgetName E.PULLUP_PATH],
      by simp only [List.append_assoc], ?_⟩
    intro e he
    simp only [List.mem_append, List.mem_singleton] at he
    rcases he with (rfl | he) | rfl
    · rfl
    · exact hlk e he
    · rfl
  | true =>
    rw [h1 hw]
    cases callback with
    | none =>
      refine ⟨[Event.addGenericAndroidFunctions functions false 0] ++ linkEvents i0
        ((strtok (E.getVendorFunctions
          (tr ++ [Event.addGenericAndroidFunctions functions false 0]))).filterMap vendorPath)
        ++ [Event.WriteStringToFile E.kGadgetName E.PULLUP_PATH],
        by simp only [List.append_assoc, List.append_nil], ?_⟩
      intro e he
      simp only [List.mem_append, List.mem_singleton] at he
      rcases he with (rfl | he) | rfl
      · rfl
      · exact hlk e he
      · rfl
    | some cb =>
      refine ⟨[Event.addGenericAndroidFunctions functions false 0] ++ linkEvents i0
        ((strtok (E.getVendorFunctions
          (tr ++ [Event.addGenericAndroidFunctions functions false 0]))).filterMap vendorPath)
        ++ [Event.WriteStringToFile E.kGadgetName E.PULLUP_PATH] ++
        [Event.setCurrentUsbFunctionsCb functions Status.SUCCESS in_transactionId],
        by simp only [List.append_assoc], ?_⟩
      intro e he
      simp only [List.mem_append, List.mem_singleton] at he
      rcases he with ((rfl | he) | rfl) | rfl
      · rfl
      · exact hlk e he
      · rfl
      · rfl

theorem setupFunctions_immediate_pullup_witness :
    setupFunctions aidlGadgetFunction (okEnv "diag,user" false)
        { mCurrentUsbFunctions := 4, mCurrentUsbFunctionsApplied := false } 4
        (some okCallback) 1000 7 []
      = (Status.SUCCESS, { mCurrentUsbFunctions := 4, mCurrentUsbFunctionsApplied := true },
          [Event.addGenericAndroidFunctions 4 false 0, Event.linkFunction "diag.diag" 1,
            Event.WriteStringToFile "a600000.dwc3" "/config/usb_gadget/g1/UDC",
            Event.setCurrentUsbFunctionsCb 4 Status.SUCCESS 7]) :=
  (setupFunctions_immediate_pullup aidlGadgetFunction (okEnv "diag,user" false)
    { mCurrentUsbFunctions := 4, mCurrentUsbFunctionsApplied := false } 4
    (some okCallback) 1000 7 [] [Event.addGenericAndroidFunctions 4 false 0]
    [Event.addGenericAndroidFunctions 4 false 0, Event.linkFunction "diag.diag" 1] 1
    ["diag.diag"] rfl rfl (by decide) (fun _ _ _ _ => rfl) (by decide) rfl).1 rfl

theorem setCurrentUsbFunctionsError_status (g : Gadget) (functions : Int)
    (callback : Option IUsbGadgetCallback) (in_transactionId : Int) (status : Status)
    (tr : List Event) :
    ∃ msg, (setCurrentUsbFunctionsError g functions callback in_transactionId status tr).1
      = ScopedAStatus.fromServiceSpecificErrorWithMessage (-1) msg := by
  cases callback with
  | none => exact ⟨_, rfl⟩
  | some cb => exact ⟨_, rfl⟩

/-- C11: for every input and every outcome of the underlying operations the status
returned by `setCurrentUsbFunctions` is a service-specific error with code -1 and is
never ok; on the success path (teardown, VID/PID validation and `setupFunctions` all
return SUCCESS for a request other than NONE) it is the error with the message
"Usb Gadget setcurrent functions called successfully". -/
theorem setCurrentUsbFunctions_never_ok (G : GadgetFunction) (E : Env) (functions : Int)
    (callback : Option IUsbGadgetCallback) (timeout in_transactionId : Int)
    (tr tr1 : List Event)
    (htr1 : tr1 = (tearDownGadget E tr).2 ++ [Event.usleep E.kDisconnectWaitUs]) :
    (∃ msg, (setCurrentUsbFunctions G E functions callback timeout in_transactionId tr).1
      = ScopedAStatus.fromServiceSpecificErrorWithMessage (-1) msg) ∧
    (setCurrentUsbFunctions G E functions callback timeout in_transactionId tr).1.isOk
      = false ∧
    (setCurrentUsbFunctions G E functions callback timeout in_transactionId tr).1
      ≠ ScopedAStatus.ok ∧
    ((tearDownGadget E tr).1 = Status.SUCCESS → functions ≠ G.NONE →
      (validateAndSetVidPid G E functions tr1).1 = Status.SUCCESS →
      (setupFunctions G E
        { mCurrentUsbFunctions := functions, mCurrentUsbFunctionsApplied := false }
        functions callback (timeout % 2 ^ 64).toNat in_transactionId
        (validateAndSetVidPid G E functions tr1).2).1 = Status.SUCCESS →
      (setCurrentUsbFunctions G E functions callback timeout in_transactionId tr).1
        = ScopedAStatus.fromServiceSpecificErrorWithMessage (-1)
            "Usb Gadget setcurrent functions called successfully") := by
  subst htr1
  have hex : ∃ msg,
      (setCurrentUsbFunctions G E functions callback timeout in_transactionId tr).1
        = ScopedAStatus.fromServiceSpecificErrorWithMessage (-1) msg := by
    simp only [setCurrentUsbFunctions]
    split_ifs
    · exact setCurrentUsbFunctionsError_status _ _ _ _ _ _
    · cases callback with
      | none => exact ⟨_, rfl⟩
      | some cb => exact ⟨_, rfl⟩
    · exact setCurrentUsbFunctionsError_status _ _ _ _ _ _
    · exact setCurrentUsbFunctionsError_status _ _ _ _ _ _
    · exact ⟨_, rfl⟩
  refine ⟨hex, ?_, ?_, ?_⟩
  · obtain ⟨msg, hmsg⟩ := hex
    rw [hmsg]
    rfl
  · obtain ⟨msg, hmsg⟩ := hex
    rw [hmsg]
    intro h
    cases h
  · intro h1 h2 h3 h4
    simp only [setCurrentUsbFunctions, h1, h3, h4, if_neg h2, ne_eq, not_true_eq_false,
      if_false]

theorem setCurrentUsbFunctions_never_ok_witness :
    setCurrentUsbFunctions aidlGadgetFunction (okEnv "" false) 4 (some okCallback) 1000 7 []
      = (ScopedAStatus.fromServiceSpecificErrorWithMessage (-1)
          "Usb Gadget setcurrent functions called successfully",
        { mCurrentUsbFunctions := 4, mCurrentUsbFunctionsApplied := true },
        [Event.resetGadget, Event.usleep 100000, Event.setVidPid "0x18d1" "0x4ee1",
          Event.addGenericAndroidFunctions 4 false 0,
          Event.WriteStringToFile "a600000.dwc3" "/config/usb_gadget/g1/UDC",
          Event.setCurrentUsbFunctionsCb 4 Status.SUCCESS 7]) ∧
    (setCurrentUsbFunctions aidlGadgetFunction (okEnv "" false) 4 (some okCallback)
        1000 7 []).1
      = ScopedAStatus.fromServiceSpecificErrorWithMessage (-1)
          "Usb Gadget setcurrent functions called successfully" :=
  ⟨by decide,
   (setCurrentUsbFunctions_never_ok aidlGadgetFunction (okEnv "" false) 4
     (some okCallback) 1000 7 [] [Event.resetGadget, Event.usleep 100000] rfl).2.2.2
     rfl (by decide) rfl rfl⟩

end UsbGadget
